import Mathlib

/-!
Shallow embedding of the media-scraper repository (src/src/main.py,
src/src/utils/validators.py, src/src/utils/exceptions.py, src/config/settings.py)
used to settle the claims about the matching-and-enrichment pipeline.

Conventions of the embedding:
* Python values that flow through the pipeline are modelled by `PyVal`
  (None / str / int / list / dict).  Python dicts are association lists in
  insertion order; assignment `d[k] = v` updates the first occurrence of `k`
  in place or appends (`dset`), exactly like an insertion-ordered dict.
* Raising an exception is modelled by `Except`; the concrete exception
  classes of src/src/utils/exceptions.py (plus the builtin TypeError /
  KeyError / IndexError / AttributeError) are the constructors of `Err`.
* Network and disk are oracles in an `Env` record: each HTTP endpoint is a
  function from its request argument to a response (status code + parsed
  JSON body) or a transport failure, and file writes consult
  `Env.writeErr` to decide whether the write raises.  The file system is a
  list of (path, content) pairs threaded through the writers.
* Machine-independent details that no claim depends on are simplified and
  flagged with a comment at their definition (e.g. the pretty-printing of
  the XML sidecar, the textual repr of a dict inside an f-string).
-/

namespace MediaScraper

/-- Model of the Python values the pipeline handles (JSON data, strings,
ints, None, lists, dicts in insertion order). -/
inductive PyVal where
  | vNone : PyVal
  | vStr (s : String) : PyVal
  | vInt (n : Int) : PyVal
  | vList (xs : List PyVal) : PyVal
  | vDict (xs : List (String × PyVal)) : PyVal

/-- A Python dict with string keys, in insertion order. -/
abbrev PyDict := List (String × PyVal)

mutual

/-- Structural equality of `PyVal`, mirroring Python `==` on the modelled
values (cross-type comparison is False, as for str/int/None/list/dict). -/
def pyValBEq : PyVal → PyVal → Bool
  | .vNone, .vNone => true
  | .vStr a, .vStr b => a = b
  | .vInt a, .vInt b => a = b
  | .vList a, .vList b => pyListBEq a b
  | .vDict a, .vDict b => pyDictBEq a b
  | _, _ => false

def pyListBEq : List PyVal → List PyVal → Bool
  | [], [] => true
  | a :: as, b :: bs => pyValBEq a b && pyListBEq as bs
  | _, _ => false

def pyDictBEq : List (String × PyVal) → List (String × PyVal) → Bool
  | [], [] => true
  | (k1, v1) :: as, (k2, v2) :: bs => k1 = k2 && pyValBEq v1 v2 && pyDictBEq as bs
  | _, _ => false

end

/-- Python `d.get(k)` / `d[k]` lookup: first binding of `k`. -/
def dget (d : PyDict) (k : String) : Option PyVal :=
  match d with
  | [] => none
  | (k', v) :: rest => if k' = k then some v else dget rest k

/-- Python `d[k] = v`: replace the first binding of `k` in place, else append
(insertion-ordered dict assignment). -/
def dset (d : PyDict) (k : String) (v : PyVal) : PyDict :=
  match d with
  | [] => [(k, v)]
  | (k', v') :: rest => if k' = k then (k, v) :: rest else (k', v') :: dset rest k v

/-- Python `k in d`. -/
def containsKey (d : PyDict) (k : String) : Bool :=
  (dget d k).isSome

/-- Python truthiness of the modelled values. -/
def truthy : PyVal → Bool
  | .vNone => false
  | .vStr s => !s.isEmpty
  | .vInt n => n != 0
  | .vList l => !l.isEmpty
  | .vDict d => !d.isEmpty

/-- Python `type(v).__name__` for the modelled values. -/
def pyTypeName : PyVal → String
  | .vNone => "NoneType"
  | .vStr _ => "str"
  | .vInt _ => "int"
  | .vList _ => "list"
  | .vDict _ => "dict"

/-- Python `str(v)`.  For list/dict the textual repr is abbreviated: no claim
depends on the repr of a non-scalar, and the pipeline only formats scalars. -/
def pyStr : PyVal → String
  | .vNone => "None"
  | .vStr s => s
  | .vInt n => toString n
  | .vList _ => "[...]"
  | .vDict _ => "dict(...)"

/-- ASCII decimal digit test (`str.isdigit` on the ASCII range). -/
def isDig (c : Char) : Bool :=
  48 ≤ c.toNat && c.toNat ≤ 57

/-- Python `\s` / `str.strip` whitespace on the ASCII range. -/
def isPySpace (c : Char) : Bool :=
  c = ' ' || c = '\t' || c = '\n' || c = '\r' || c = Char.ofNat 11 || c = Char.ofNat 12

/-- Numeric value of a digit string (most significant first). -/
def digitsToNat (cs : List Char) : Nat :=
  cs.foldl (fun n c => 10 * n + (c.toNat - 48)) 0

/-- Python `str.isdigit` (ASCII): nonempty and all digits. -/
def pyIsDigit (s : String) : Bool :=
  !s.data.isEmpty && s.data.all isDig

/-- Lexicographic `<` on strings by code point, as Python compares `str`. -/
def pyStrLtL : List Char → List Char → Bool
  | _, [] => false
  | [], _ :: _ => true
  | a :: as, b :: bs =>
    if a.toNat < b.toNat then true
    else if b.toNat < a.toNat then false
    else pyStrLtL as bs

def pyStrLt (a b : String) : Bool :=
  pyStrLtL a.data b.data

/-- Python `str.strip()` on a char list. -/
def pyStripChars (cs : List Char) : List Char :=
  ((cs.dropWhile isPySpace).reverse.dropWhile isPySpace).reverse

/-- Python `int(x)` for `str` arguments: strip whitespace, optional sign, digits. -/
def pyStrToInt (s : String) : Except String Int :=
  let err : Except String Int :=
    .error ("invalid literal for int() with base 10: " ++ s)
  match pyStripChars s.data with
  | '-' :: ds =>
    if !ds.isEmpty && ds.all isDig then .ok (-(digitsToNat ds : Int)) else err
  | '+' :: ds =>
    if !ds.isEmpty && ds.all isDig then .ok (digitsToNat ds) else err
  | ds =>
    if !ds.isEmpty && ds.all isDig then .ok (digitsToNat ds) else err

/-- Python `int(value)`: succeeds on int and integer strings, raises
TypeError / ValueError otherwise (both are caught alike at the call site). -/
def pyToInt : PyVal → Except String Int
  | .vInt n => .ok n
  | .vStr s => pyStrToInt s
  | v => .error ("int() argument must be a string, a bytes-like object or a real number, not "
      ++ pyTypeName v)

/-- The exception classes of src/src/utils/exceptions.py plus the Python
builtins the pipeline can raise. -/
inductive Err where
  | noYearError (msg : String)
  | apiConnectionError (msg : String)
  | apiAnswerWrongDataError (msg : String)
  | noFilmsError (msg : String)
  | unauthorisedError (msg : String)
  | requestLimitExceededError (msg : String)
  | tooManyRequestsError (msg : String)
  | notFoundError (msg : String)
  | missingVariableError (msg : String)
  | typeError (msg : String)
  | keyError (key : String)
  | indexError (msg : String)
  | attributeError (msg : String)
  deriving DecidableEq, Repr

-- ======================= config/settings.py =======================

/-- settings.py `VIDEO_EXT`. -/
def VIDEO_EXT : List String := [".mp4", ".mkv", ".avi", ".mov"]

/-- settings.py `MAX_ACTORS`. -/
def MAX_ACTORS : Nat := 10

/-- settings.py `FILM_INFO_STRUCTURE` (a dict literal, in source order). -/
def FILM_INFO_STRUCTURE : List (String × String) :=
  [ ("title", "nameRu"),
    ("originaltitle", "nameOriginal"),
    ("year", "year"),
    ("plot", "description"),
    ("runtime", "filmLength"),
    ("rating", "ratingKinopoisk"),
    ("votes", "ratingKinopoiskVoteCount"),
    ("mpaa", "ratingMpaa"),
    ("certification", "ratingMpaa"),
    ("genres", "genres"),
    ("countries", "countries"),
    ("kinopoisk_id", "kinopoiskId"),
    ("poster", "posterUrl"),
    ("fanart", "coverUrl") ]

-- ======================= utils/validators.py =======================

/-- validators.py `check_request_status`: the uniform status-code mapping.
The cases are tested in source order (401, 402, 429, 200, 404, wildcard). -/
def check_request_status (status_code : Nat) : Except Err Unit :=
  if status_code = 401 then
    .error (.unauthorisedError "Ошибка авторизации, проверьте токен API")
  else if status_code = 402 then
    .error (.requestLimitExceededError "Превышен дневной или общий лимит на запросы к API")
  else if status_code = 429 then
    .error (.tooManyRequestsError "Превышен секундный лимит на запросы к API")
  else if status_code = 200 then
    .ok ()
  else if status_code = 404 then
    .ok ()
  else
    .error (.apiConnectionError ("API вернул код: " ++ toString status_code))

-- ======================= main.py: KeyExtractor =======================

/-- main.py `SPLITTERS` = the char class `[_.()]`. -/
def SPLITTERS : List Char := ['_', '.', '(', ')']

/-- Does settings.py `YEAR_STAMP` = `(19|20)\d{2}` match at the head of the
char list? -/
def yearPatternAt : List Char → Bool
  | a :: b :: c :: d :: _ =>
    ((a = '1' && b = '9') || (a = '2' && b = '0')) && isDig c && isDig d
  | _ => false

/-- Python `re.search(YEAR_STAMP, s)`: index of the leftmost match, scanning from
position `base`. -/
def searchYearGo : List Char → Nat → Option Nat
  | [], _ => none
  | c :: rest, i =>
    if yearPatternAt (c :: rest) then some i else searchYearGo rest (i + 1)

/-- Python `re.sub(SPLITTERS, ' ', ·)`: each separator char becomes a space. -/
def replaceSplitters (cs : List Char) : List Char :=
  cs.map (fun c => if c ∈ SPLITTERS then ' ' else c)

/-- Python `re.sub(r'\s+', ' ', ·)`: collapse every whitespace run to one space.
The flag records whether the previous char was inside a whitespace run. -/
def collapseWsGo : Bool → List Char → List Char
  | _, [] => []
  | inWs, c :: rest =>
    if isPySpace c then
      if inWs then collapseWsGo true rest else ' ' :: collapseWsGo true rest
    else c :: collapseWsGo false rest

/-- The title clean-up chain of `get_film_name_year`: replace separators,
collapse whitespace runs, strip. -/
def titleClean (cs : List Char) : List Char :=
  pyStripChars (collapseWsGo false (replaceSplitters cs))

/-- main.py `get_film_name_year`: leftmost `YEAR_STAMP` match gives the
year (the 4 matched chars); the prefix before the match, cleaned, is the
title; no match raises `NoYearError`. -/
def get_film_name_year (raw_file_name : String) : Except Err (String × String) :=
  let cs := raw_file_name.data
  match searchYearGo cs 0 with
  | some i =>
    .ok (String.mk (titleClean (cs.take i)), String.mk ((cs.drop i).take 4))
  | none =>
    .error (.noYearError ("У файла " ++ raw_file_name
      ++ " год выпуска не найден.\nПроверьте имя файла."))

/-- main.py `is_nfo_file_exists`. -/
def is_nfo_file_exists (video_file_name : String) (files : List String) : Bool :=
  files.any (fun file_name => file_name = video_file_name ++ ".nfo")

/-- Python `os.path.splitext` on a bare file name: split at the last dot, unless
every character before it is a dot. -/
def lastIdxOf (c : Char) (cs : List Char) : Option Nat :=
  match cs with
  | [] => none
  | x :: rest =>
    match lastIdxOf c rest with
    | some i => some (i + 1)
    | none => if x = c then some 0 else none

def splitext (s : String) : String × String :=
  match lastIdxOf '.' s.data with
  | none => (s, "")
  | some i =>
    if (s.data.take i).any (fun c => c ≠ '.') then
      (String.mk (s.data.take i), String.mk (s.data.drop i))
    else
      (s, "")

-- ======================= environment (network / disk oracles) =======================

/-- One HTTP response: its status code and its parsed JSON body.
(A body that fails to parse as JSON is out of scope of every claim;
`.json()` is modelled as always yielding the oracle's `PyVal`.) -/
structure HttpResponse where
  status : Nat
  body : PyVal

/-- A `requests.get` outcome: a response, or a `RequestException`. -/
inductive HttpResult where
  | success (resp : HttpResponse)
  | failure (msg : String)

/-- The file system: the files written so far, as (path, content) pairs
in write order. -/
abbrev FS := List (String × String)

/-- The external world: one oracle per catalog endpoint, one for image
downloads, and one deciding whether a file write raises (OS error). -/
structure Env where
  search : String → HttpResult
  film : String → HttpResult
  staff : String → HttpResult
  image : String → Except String String
  writeErr : String → Option String

-- ======================= main.py: get_film_id =======================

/-- The statement after the scan loop of `get_film_id`:
`return is_year_found, str(films[last_released_film_idx]['filmId']), msg`
with `is_year_found = False`. -/
def finalReturn (films : List PyVal) (last_released_film_idx : Nat) (msg : String) :
    Except Err (Bool × String × String) :=
  match films.get? last_released_film_idx with
  | none => .error (.indexError "list index out of range")
  | some film =>
    match film with
    | .vDict d =>
      match dget d "filmId" with
      | none => .error (.keyError "filmId")
      | some fid => .ok (false, pyStr fid, msg)
    | _ => .error (.typeError "film is not subscriptable")

/-- The candidate-scan loop of `get_film_id` (main.py lines 217-235).
`films` is the full list (needed for the closing `films[last_released_film_idx]`),
`rest` the films not yet visited, `idx` the position of `rest`'s head,
`last_release_year` / `last_released_film_idx` the running maximum, `msg`
the message variable. -/
def filmsGo (title year : String) (films : List PyVal) :
    List PyVal → Nat → String → Nat → String → Except Err (Bool × String × String)
  | [], _, _, last_released_film_idx, msg =>
    -- loop finished without an exact match
    finalReturn films last_released_film_idx msg
  | film :: rest, idx, last_release_year, last_released_film_idx, _ =>
    match film with
    | .vDict d =>
      match dget d "year" with
      | none => .error (.keyError "year")
      | some fy =>
        match fy with
        | .vStr film_year =>
          if film_year.length ≠ 4 || !pyIsDigit film_year then
            .error (.apiAnswerWrongDataError
              "В ответе формат данных года не соответствует ожидаемым")
          else
            let acc :=
              if pyStrLt last_release_year film_year then (film_year, idx)
              else (last_release_year, last_released_film_idx)
            if film_year = year then
              match dget d "nameRu" with
              | none => .error (.keyError "nameRu")
              | some nm =>
                match dget d "filmId" with
                | none => .error (.keyError "filmId")
                | some fid =>
                  .ok (true, pyStr fid,
                    "Данные о фильме " ++ pyStr nm ++ " (" ++ year ++ ") успешно получены")
            else
              filmsGo title year films rest (idx + 1) acc.1 acc.2
                ("Год выпуска при поиске " ++ title ++ " (" ++ year
                  ++ ") не найден в ответе API, сохранены данные о фильме "
                  ++ "с самым свежим годом релиза.")
        | other =>
          .error (.typeError ("object of type '" ++ pyTypeName other ++ "' has no len()"))
    | _ => .error (.typeError ("'" ++ pyTypeName film ++ "' object is not subscriptable"))

/-- Entry into the scan loop, as `get_film_id` enters it: index 0,
`last_release_year = '0000'`, `last_released_film_idx = 0`. -/
def filmsScan (title year : String) (films : List PyVal) : Except Err (Bool × String × String) :=
  filmsGo title year films films 0 "0000" 0 ""

/-- Body handling of `get_film_id` after a 200 response: the answer must be
a dict, must hold the key `films`, the list must be nonempty, then the scan
loop runs.  (A non-list `films` value is modelled as a TypeError: iterating
it with subscripted dict access fails on every non-list the API could send.) -/
def get_film_id_body (title year : String) (body : PyVal) : Except Err (Bool × String × String) :=
  match body with
  | .vDict request_data =>
    match dget request_data "films" with
    | none => .error (.apiAnswerWrongDataError "Ключ films отсутствует в ответе API")
    | some fv =>
      match fv with
      | .vList films =>
        if films.length = 0 then
          .error (.noFilmsError ("Поиск (" ++ title
            ++ "). В ответе API список films пуст.\nПроверьте имя файла."))
        else filmsScan title year films
      | other => .error (.typeError ("object of type '" ++ pyTypeName other ++ "' has no len()"))
  | other =>
    .error (.typeError ("Для request_data ожидался dict, Получен " ++ pyTypeName other))

/-- main.py `get_film_id` (the `ttl_cache` memoisation is a pure
optimisation over an idempotent oracle and is not modelled; the message of
`APIConnectionError` abbreviates the request-params repr of the f-string). -/
def get_film_id (env : Env) (title year : String) :
    Except Err (Option (Bool × String × String)) :=
  match env.search title with
  | .failure e => .error (.apiConnectionError ("Ошибка при получении ответа от API: " ++ e))
  | .success resp =>
    match check_request_status resp.status with
    | .error er => .error er
    | .ok _ =>
      if resp.status = 404 then .ok none
      else (get_film_id_body title year resp.body).map (fun r => some r)

-- ======================= main.py: get_raw_film_info =======================

/-- Body handling of `get_raw_film_info` after a 200 response:
`validate_types(raw_film_info=(raw_film_info, dict))`. -/
def get_raw_film_info_body (body : PyVal) : Except Err PyDict :=
  match body with
  | .vDict d => .ok d
  | other =>
    .error (.typeError ("Для raw_film_info ожидался dict, Получен " ++ pyTypeName other))

/-- main.py `get_raw_film_info`. -/
def get_raw_film_info (env : Env) (film_id : String) : Except Err (Option PyDict) :=
  match env.film film_id with
  | .failure e => .error (.apiConnectionError ("Ошибка при получении ответа от API: " ++ e))
  | .success resp =>
    match check_request_status resp.status with
    | .error er => .error er
    | .ok _ =>
      if resp.status = 404 then .ok none
      else (get_raw_film_info_body resp.body).map (fun d => some d)

-- ======================= main.py: get_raw_staff_info =======================

/-- Python `x == 'lit'` where `x` is an arbitrary value: equality holds only
for the equal string, is False across types. -/
def pyEqStr (v : PyVal) (s : String) : Bool :=
  match v with
  | .vStr t => t = s
  | _ => false

/-- The person-filter loop of `get_raw_staff_info`: actors are appended while
below the cap, directors unconditionally. -/
def buildStaff (max_actors : Nat) :
    List PyVal → List PyVal → List PyVal → Except Err (List PyVal × List PyVal)
  | [], actors, directors => .ok (actors, directors)
  | person :: rest, actors, directors =>
    match person with
    | .vDict pd =>
      match dget pd "professionKey" with
      | none => .error (.keyError "professionKey")
      | some pk =>
        let actors' :=
          if pyEqStr pk "ACTOR" && actors.length < max_actors then actors ++ [person]
          else actors
        let directors' :=
          if pyEqStr pk "DIRECTOR" then directors ++ [person] else directors
        buildStaff max_actors rest actors' directors'
    | other =>
      .error (.typeError ("'" ++ pyTypeName other ++ "' object is not subscriptable"))

/-- Body handling of `get_raw_staff_info` after a 200 response:
`validate_types(raw_film_staff_info=(..., list))`, then the filter loop
fills `raw_filtered_staff = dict(ACTORS=[], DIRECTORS=[])`. -/
def get_raw_staff_info_body (max_actors : Nat) (body : PyVal) : Except Err PyDict :=
  match body with
  | .vList persons =>
    match buildStaff max_actors persons [] [] with
    | .error e => .error e
    | .ok (actors, directors) =>
      .ok [("ACTORS", .vList actors), ("DIRECTORS", .vList directors)]
  | other =>
    .error (.typeError ("Для raw_film_staff_info ожидался list, Получен " ++ pyTypeName other))

/-- main.py `get_raw_staff_info`. -/
def get_raw_staff_info (env : Env) (film_id : String) (max_actors : Nat) :
    Except Err (Option PyDict) :=
  match env.staff film_id with
  | .failure e => .error (.apiConnectionError ("Ошибка при получении ответа от API: " ++ e))
  | .success resp =>
    match check_request_status resp.status with
    | .error er => .error er
    | .ok _ =>
      if resp.status = 404 then .ok none
      else (get_raw_staff_info_body max_actors resp.body).map (fun d => some d)

-- ======================= main.py: get_clean_film_info =======================

/-- Accumulator of the `FILM_INFO_STRUCTURE` loop in `get_clean_film_info`:
the `empty_fields` list, the `clean_film_info` dict and the `posters_urls`
dict, in mutation order. -/
structure CleanAcc where
  empty : List String
  clean : PyDict
  posters : PyDict

/-- One iteration of the `get_clean_film_info` loop for the table entry
`(key, api_field)`; `(dget raw kf.2).getD .vNone` is the loop's
`value = raw_film_info.get(api_field)`. -/
def cleanStep (raw : PyDict) (acc : CleanAcc) (kf : String × String) : CleanAcc :=
  if truthy ((dget raw kf.2).getD .vNone) then
    if kf.1 = "runtime" then
      match pyToInt ((dget raw kf.2).getD .vNone) with
      | .ok n => { acc with clean := dset acc.clean kf.1 (.vInt (n * 60)) }
      | .error _ =>
        { acc with clean := dset acc.clean kf.1 .vNone, empty := acc.empty ++ [kf.1] }
    else if kf.1 = "poster" || kf.1 = "fanart" then
      { acc with posters := dset acc.posters kf.1 ((dget raw kf.2).getD .vNone) }
    else
      { acc with clean := dset acc.clean kf.1 ((dget raw kf.2).getD .vNone) }
  else
    { acc with empty := acc.empty ++ [kf.1] }

/-- The full loop of `get_clean_film_info`, starting from
`empty_fields = []`, `clean_film_info = dict()`,
`posters_urls = dict(poster=None, cover=None)`. -/
def cleanFilmAcc (raw : PyDict) : CleanAcc :=
  FILM_INFO_STRUCTURE.foldl (cleanStep raw) ⟨[], [], [("poster", .vNone), ("cover", .vNone)]⟩

/-- main.py `get_clean_film_info`.  The argument is a dict (its callers
return validated dicts), so `validate_types` passes by typing. -/
def get_clean_film_info (raw_film_info : PyDict) : PyDict × PyDict × String :=
  let acc := cleanFilmAcc raw_film_info
  (acc.clean, acc.posters, String.intercalate ", " acc.empty)

-- ======================= main.py: get_clean_staff_info =======================

/-- Python `clean_staff_info[profession].append(x)`: KeyError when the bucket does
not exist, else append to the bucket list. -/
def dAppend (d : PyDict) (k : String) (x : PyVal) : Except Err PyDict :=
  match dget d k with
  | some (.vList l) => .ok (dset d k (.vList (l ++ [x])))
  | some v => .error (.attributeError ("'" ++ pyTypeName v ++ "' object has no attribute append"))
  | none => .error (.keyError k)

/-- Assignment into `staff_posters`, whose keys are the resolved person
names (possibly `None`, possibly a non-string value). -/
def pset (d : List (Option PyVal × PyVal)) (k : Option PyVal) (v : PyVal) :
    List (Option PyVal × PyVal) :=
  match d with
  | [] => [(k, v)]
  | (k', v') :: rest =>
    let eq := match k, k' with
      | none, none => true
      | some a, some b => pyValBEq a b
      | _, _ => false
    if eq then (k, v) :: rest else (k', v') :: pset rest k v

/-- The per-person inner loop of `get_clean_staff_info` over one profession
bucket, carrying `clean_staff_info`, `staff_posters`, `empty_posters`. -/
def staffInner (profession : String) :
    List PyVal → PyDict → List (Option PyVal × PyVal) → List (Option PyVal) →
    Except Err (PyDict × List (Option PyVal × PyVal) × List (Option PyVal))
  | [], clean, posters, empty => .ok (clean, posters, empty)
  | person :: rest, clean, posters, empty =>
    match person with
    | .vDict pd =>
      let person_name : Option PyVal :=
        match dget pd "nameRu" with
        | some v =>
          if truthy v then some v
          else
            match dget pd "nameEn" with
            | some w => if truthy w then some w else none
            | none => none
        | none =>
          match dget pd "nameEn" with
          | some w => if truthy w then some w else none
          | none => none
      let cleanNext : Except Err PyDict :=
        match person_name with
        | some nv =>
          match dget pd "description" with
          | none => .error (.keyError "description")
          | some desc => dAppend clean profession (.vDict [("name", nv), ("role", desc)])
        | none => .ok clean
      match cleanNext with
      | .error e => .error e
      | .ok clean' =>
        let poster_url := (dget pd "posterUrl").getD .vNone
        if truthy poster_url then
          staffInner profession rest clean' (pset posters person_name poster_url) empty
        else
          staffInner profession rest clean' posters (empty ++ [person_name])
    | other =>
      .error (.attributeError ("'" ++ pyTypeName other ++ "' object has no attribute get"))

/-- The outer loop of `get_clean_staff_info` over the profession buckets of
`raw_staff_info.items()`.  (A non-list bucket value is modelled as a
TypeError: every non-list bucket the callers can produce fails under
iteration-plus-`.get`.) -/
def staffOuter :
    List (String × PyVal) → PyDict → List (Option PyVal × PyVal) → List (Option PyVal) →
    Except Err (PyDict × List (Option PyVal × PyVal) × List (Option PyVal))
  | [], clean, posters, empty => .ok (clean, posters, empty)
  | (profession, persons) :: rest, clean, posters, empty =>
    match persons with
    | .vList ps =>
      match staffInner profession ps clean posters empty with
      | .error e => .error e
      | .ok (clean', posters', empty') => staffOuter rest clean' posters' empty'
    | other =>
      .error (.typeError ("'" ++ pyTypeName other ++ "' object is not iterable"))

/-- Python `', '.join(empty_posters)`: every element must be a string, else the
join raises a TypeError (an entry can be `None` for a nameless person). -/
def joinNames (xs : List (Option PyVal)) : Except Err String :=
  match xs.mapM (fun x => match x with | some (.vStr s) => some s | _ => none) with
  | some ss => .ok (String.intercalate ", " ss)
  | none => .error (.typeError "sequence item: expected str instance")

/-- main.py `get_clean_staff_info`.  The argument is a dict (the explicit
`isinstance` check passes by typing). -/
def get_clean_staff_info (raw_staff_info : PyDict) :
    Except Err (PyDict × List (Option PyVal × PyVal) × String) :=
  match staffOuter raw_staff_info [("ACTORS", .vList []), ("DIRECTORS", .vList [])] [] [] with
  | .error e => .error e
  | .ok (clean, posters, empty) =>
    match joinNames empty with
    | .error e => .error e
    | .ok s => .ok (clean, posters, s)

-- ======================= main.py: create_nfo =======================

/-- An ElementTree element: tag, `.text` (a Python value or None — a
non-string text makes serialisation raise), children. -/
inductive Xml where
  | elem (tag : String) (text : Option PyVal) (children : List Xml)

/-- The `genres` / `countries` explosion: one element per list entry, reading
the sub-key and `str()`-ing it. -/
def listElems (elemTag keyName : String) (v : PyVal) : Except String (List Xml) :=
  match v with
  | .vList items =>
    items.mapM (fun it =>
      match it with
      | .vDict d =>
        match dget d keyName with
        | some gv => .ok (Xml.elem elemTag (some (.vStr (pyStr gv))) [])
        | none => .error ("KeyError: '" ++ keyName ++ "'")
      | other => .error ("'" ++ pyTypeName other ++ "' object is not subscriptable"))
  | other => .error ("'" ++ pyTypeName other ++ "' object is not iterable")

/-- The film-tag loop of `create_nfo` (over `clean_film_info.items()`):
falsy values are skipped, `genres`/`countries` explode, the rest become
`<tag>str(value)</tag>`. -/
def nfoFilmChildren : List (String × PyVal) → Except String (List Xml)
  | [] => .ok []
  | (tag, tag_value) :: rest =>
    if truthy tag_value then
      if tag = "genres" then
        match listElems "genre" "genre" tag_value with
        | .error e => .error e
        | .ok els =>
          match nfoFilmChildren rest with
          | .error e => .error e
          | .ok more => .ok (els ++ more)
      else if tag = "countries" then
        match listElems "country" "country" tag_value with
        | .error e => .error e
        | .ok els =>
          match nfoFilmChildren rest with
          | .error e => .error e
          | .ok more => .ok (els ++ more)
      else
        match nfoFilmChildren rest with
        | .error e => .error e
        | .ok more => .ok (Xml.elem tag (some (.vStr (pyStr tag_value))) [] :: more)
    else nfoFilmChildren rest

/-- Python `.get('name')` on a roster person: requires a dict. -/
def personGet (p : PyVal) (k : String) : Except String (Option PyVal) :=
  match p with
  | .vDict d => .ok (dget d k)
  | other => .error ("'" ++ pyTypeName other ++ "' object has no attribute get")

/-- The actor loop of `create_nfo`: one `<actor>` element per person,
carrying name, role, and the zero-based enumerate index as order. -/
def actorElems (idx : Nat) : List PyVal → Except String (List Xml)
  | [] => .ok []
  | p :: ps =>
    match personGet p "name" with
    | .error e => .error e
    | .ok nameV =>
      match personGet p "role" with
      | .error e => .error e
      | .ok roleV =>
        match actorElems (idx + 1) ps with
        | .error e => .error e
        | .ok more =>
          .ok (Xml.elem "actor" none
            [ Xml.elem "name" nameV [],
              Xml.elem "role" roleV [],
              Xml.elem "order" (some (.vStr (toString idx))) [] ] :: more)

/-- The director loop of `create_nfo`. -/
def directorElems : List PyVal → Except String (List Xml)
  | [] => .ok []
  | p :: ps =>
    match personGet p "name" with
    | .error e => .error e
    | .ok nameV =>
      match directorElems ps with
      | .error e => .error e
      | .ok more => .ok (Xml.elem "director" nameV [] :: more)

/-- The staff loop of `create_nfo` (over `clean_staff_info.items()`):
`ACTORS` and `DIRECTORS` buckets are rendered, other keys ignored. -/
def nfoStaffChildren : List (String × PyVal) → Except String (List Xml)
  | [] => .ok []
  | (profession, persons) :: rest =>
    if profession = "ACTORS" then
      match persons with
      | .vList ps =>
        match actorElems 0 ps with
        | .error e => .error e
        | .ok els =>
          match nfoStaffChildren rest with
          | .error e => .error e
          | .ok more => .ok (els ++ more)
      | other => .error ("'" ++ pyTypeName other ++ "' object is not iterable")
    else if profession = "DIRECTORS" then
      match persons with
      | .vList ps =>
        match directorElems ps with
        | .error e => .error e
        | .ok els =>
          match nfoStaffChildren rest with
          | .error e => .error e
          | .ok more => .ok (els ++ more)
      | other => .error ("'" ++ pyTypeName other ++ "' object is not iterable")
    else nfoStaffChildren rest

/-- Serialising an element's `.text`: None renders empty, a string renders
itself, anything else raises (as `tostring` does). -/
def xmlTextRender : Option PyVal → Except String String
  | none => .ok ""
  | some (.vStr s) => .ok s
  | some other => .error ("cannot serialize " ++ pyTypeName other ++ " (type "
      ++ pyTypeName other ++ ")")

mutual

/-- Serialisation of the element tree.  The declaration / pretty-printing /
blank-line-stripping chain of the source only reformats whitespace; no
claim depends on the textual layout, so elements render inline. -/
def xmlRender : Xml → Except String String
  | .elem tag txt children =>
    match xmlTextRender txt with
    | .error e => .error e
    | .ok t =>
      match xmlRenderList children with
      | .error e => .error e
      | .ok cs => .ok ("<" ++ tag ++ ">" ++ t ++ cs ++ "</" ++ tag ++ ">")

def xmlRenderList : List Xml → Except String String
  | [] => .ok ""
  | x :: xs =>
    match xmlRender x with
    | .error e => .error e
    | .ok s =>
      match xmlRenderList xs with
      | .error e => .error e
      | .ok t => .ok (s ++ t)

end

/-- The body of `create_nfo`'s `try` block: validate the two dict arguments,
build the element tree, serialise, write `<path>/<name>.nfo`.  The error
value carries the file system at the moment of the raise (the write is the
only file-system effect). -/
def create_nfo_core (clean_film_info clean_staff_info : PyVal) (path raw_file_name : String)
    (env : Env) (fs : FS) : Except (String × FS) FS :=
  match clean_film_info with
  | .vDict cfi =>
    match clean_staff_info with
    | .vDict csi =>
      match nfoFilmChildren cfi with
      | .error e => .error (e, fs)
      | .ok filmEls =>
        match nfoStaffChildren csi with
        | .error e => .error (e, fs)
        | .ok staffEls =>
          match xmlRender (Xml.elem "movie" none (filmEls ++ staffEls)) with
          | .error e => .error (e, fs)
          | .ok bodyXml =>
            let final_xml := "<?xml version='1.0' encoding='utf-8'?>\n" ++ bodyXml
            let nfo_path := path ++ "/" ++ raw_file_name ++ ".nfo"
            match env.writeErr nfo_path with
            | some e => .error (e, fs)
            | none => .ok (fs ++ [(nfo_path, final_xml)])
    | other =>
      .error ("Для clean_staff_info ожидался dict, Получен " ++ pyTypeName other, fs)
  | other =>
    .error ("Для clean_film_info ожидался dict, Получен " ++ pyTypeName other, fs)

/-- main.py `create_nfo`: everything runs inside `try`; any exception is
converted into `(False, message)`; success yields `(True, message)`. -/
def create_nfo (clean_film_info clean_staff_info : PyVal) (path raw_file_name : String)
    (env : Env) (fs : FS) : Bool × String × FS :=
  match create_nfo_core clean_film_info clean_staff_info path raw_file_name env fs with
  | .ok fs' => (true, "*.nfo файл успешно создан.", fs')
  | .error (e, fs') => (false, "Ошибка при создании *.nfo: " ++ e, fs')

-- ======================= main.py: create_posters =======================

/-- Python `requests.get(url=value)` on a poster URL value: a non-string url makes
the request raise; otherwise the image oracle answers. -/
def fetchPic (env : Env) (v : PyVal) : Except String String :=
  match v with
  | .vStr u => env.image u
  | other => .error ("InvalidSchema: No connection adapters were found for " ++ pyTypeName other)

/-- The poster/cover loop of `create_posters` over `posters_urls.items()`:
truthy values are downloaded to `<root>/<raw_file_name>-<key>.jpg`. -/
def postersLoop (posters : PyDict) (env : Env) (root raw_file_name : String) :
    List (String × PyVal) → FS → Except (String × FS) FS
  | [], fs => .ok fs
  | (key, value) :: rest, fs =>
    if truthy value then
      let file_root := root ++ "/" ++ raw_file_name ++ "-" ++ key ++ ".jpg"
      match fetchPic env ((dget posters key).getD .vNone) with
      | .error e => .error (e, fs)
      | .ok content =>
        match env.writeErr file_root with
        | some e => .error (e, fs)
        | none => postersLoop posters env root raw_file_name rest (fs ++ [(file_root, content)])
    else postersLoop posters env root raw_file_name rest fs

/-- Python `re.sub(' ', '_', name)`: every space becomes an underscore. -/
def underscoreName (nm : String) : String :=
  String.mk (nm.data.map (fun c => if c = ' ' then '_' else c))

/-- The cast-photo loop of `create_posters` over `staff_posters.items()`:
spaces in the name become underscores, the photo goes to the hidden
`.actors` subdirectory.  (`os.makedirs(..., exist_ok=True)` is modelled as
effect-free: directories are implicit in the path strings.) -/
def staffPostersLoop (env : Env) (root : String) :
    List (Option PyVal × PyVal) → FS → Except (String × FS) FS
  | [], fs => .ok fs
  | (name, poster_url) :: rest, fs =>
    match name with
    | some (.vStr nm) =>
      let poster_root := root ++ "/.actors/" ++ underscoreName nm ++ ".jpg"
      match fetchPic env poster_url with
      | .error e => .error (e, fs)
      | .ok content =>
        match env.writeErr poster_root with
        | some e => .error (e, fs)
        | none => staffPostersLoop env root rest (fs ++ [(poster_root, content)])
    | _ => .error ("expected string or bytes-like object", fs)

/-- The body of `create_posters`'s `try` block. -/
def create_posters_core (posters_urls : PyVal) (staff_posters : List (Option PyVal × PyVal))
    (env : Env) (root raw_file_name : String) (fs : FS) : Except (String × FS) FS :=
  match posters_urls with
  | .vDict posters =>
    match postersLoop posters env root raw_file_name posters fs with
    | .error r => .error r
    | .ok fs1 => staffPostersLoop env root staff_posters fs1
  | other =>
    .error ("Для posters_urls ожидался dict, Получен " ++ pyTypeName other, fs)

/-- main.py `create_posters`: everything runs inside `try`; any exception is
converted into `(False, message)`; files written before the raise persist. -/
def create_posters (posters_urls : PyVal) (staff_posters : List (Option PyVal × PyVal))
    (env : Env) (root raw_file_name : String) (fs : FS) : Bool × String × FS :=
  match create_posters_core posters_urls staff_posters env root raw_file_name fs with
  | .ok fs' => (true, "Постеры успешно сохранены.", fs')
  | .error (e, fs') => (false, "Ошибка при сохранении постеров: " ++ e, fs')

-- ======================= main.py: process_folder =======================

/-- The per-file loop of `process_folder`.  `allFiles` is the folder's full
listing (used by the sidecar-existence check); an exception anywhere in a
file's processing propagates out of the loop, losing the counter and the
accumulated message; the file system retains the writes made so far. -/
def pfGo (env : Env) (root : String) (allFiles : List String) :
    List String → Nat → String → FS → Except Err (Nat × String) × FS
  | [], files_processed, message, fs => (.ok (files_processed, message), fs)
  | file :: restFiles, files_processed, message, fs =>
    let se := splitext file
    let raw_file_name := se.1
    if se.2 ∈ VIDEO_EXT then
      if is_nfo_file_exists raw_file_name allFiles then
        pfGo env root allFiles restFiles files_processed message fs
      else
        let files_processed := files_processed + 1
        match get_film_name_year raw_file_name with
        | .error e => (.error e, fs)
        | .ok (title, year) =>
          match get_film_id env title year with
          | .error e => (.error e, fs)
          | .ok none =>
            (.error (.notFoundError ("В API для " ++ title ++ " (" ++ year
              ++ ") id не найден")), fs)
          | .ok (some (is_ok_film_id, film_id, msg_id)) =>
            match get_raw_film_info env film_id with
            | .error e => (.error e, fs)
            | .ok none =>
              (.error (.notFoundError ("В API для id " ++ film_id
                ++ ") Информация о фильме не найдена")), fs)
            | .ok (some raw_film_info) =>
              match get_raw_staff_info env film_id MAX_ACTORS with
              | .error e => (.error e, fs)
              | .ok none =>
                (.error (.notFoundError ("В API для id " ++ film_id
                  ++ ") Информация об актерах не найдена")), fs)
              | .ok (some result_raw_staff_info) =>
                let cpe := get_clean_film_info raw_film_info
                let clean_film_info := cpe.1
                let posters_urls := cpe.2.1
                -- message += f'{clean_film_info['title']} ({clean_film_info['year']}):'
                -- unguarded dict access: a missing key raises KeyError here
                match dget clean_film_info "title" with
                | none => (.error (.keyError "title"), fs)
                | some titleV =>
                  match dget clean_film_info "year" with
                  | none => (.error (.keyError "year"), fs)
                  | some yearV =>
                    let message := message ++ pyStr titleV ++ " (" ++ pyStr yearV ++ "):"
                    match get_clean_staff_info result_raw_staff_info with
                    | .error e => (.error e, fs)
                    | .ok (clean_staff_info, staff_posters, _empty_posters) =>
                      let r1 := create_nfo (.vDict clean_film_info) (.vDict clean_staff_info)
                        root raw_file_name env fs
                      let message := message ++ "\n- " ++ r1.2.1
                      let r2 := create_posters (.vDict posters_urls) staff_posters
                        env root raw_file_name r1.2.2
                      let message := message ++ "\n- " ++ r2.2.1
                      let message :=
                        if is_ok_film_id then message else message ++ "\n- " ++ msg_id
                      pfGo env root allFiles restFiles files_processed message r2.2.2
    else pfGo env root allFiles restFiles files_processed message fs

/-- main.py `process_folder`: iterate the folder listing; any extraction /
resolution / normalisation exception propagates to the caller (there is no
per-file handler), so the folder result is lost for the whole listing. -/
def process_folder (env : Env) (root : String) (files : List String) (fs : FS) :
    Except Err (Nat × String) × FS :=
  pfGo env root files files 0 "" fs

/-- The `.ok`-projection used by concrete folder runs in the theorems below. -/
def processedCount (r : Except Err (Nat × String)) : Nat :=
  match r with
  | .ok (n, _) => n
  | .error _ => 0

-- ======================= dict lemmas =======================

theorem dget_dset_self (d : PyDict) (k : String) (v : PyVal) :
    dget (dset d k v) k = some v := by
  induction d with
  | nil => simp [dset, dget]
  | cons p rest ih =>
    by_cases h : p.1 = k
    · simp [dset, h, dget]
    · simp [dset, h, dget, ih]

theorem dget_dset_ne (d : PyDict) (k k2 : String) (v : PyVal) (h : k ≠ k2) :
    dget (dset d k v) k2 = dget d k2 := by
  induction d with
  | nil => simp [dset, dget, h]
  | cons p rest ih =>
    by_cases hp : p.1 = k
    · simp [dset, hp, dget, h]
    · simp [dset, hp, dget, ih]

-- ======================= get_clean_film_info lemmas =======================

/-- A loop step for a table entry with a different output key neither
changes that key's binding in `clean_film_info` nor its membership in
`empty_fields`. -/
theorem cleanStep_frame (raw : PyDict) (acc : CleanAcc) (kf : String × String) (key : String)
    (h : kf.1 ≠ key) :
    dget (cleanStep raw acc kf).clean key = dget acc.clean key ∧
    (key ∈ (cleanStep raw acc kf).empty ↔ key ∈ acc.empty) := by
  have hne : key ≠ kf.1 := fun hk => h hk.symm
  unfold cleanStep
  by_cases htr : truthy ((dget raw kf.2).getD .vNone) = true
  · rw [if_pos htr]
    by_cases hrt : kf.1 = "runtime"
    · rw [if_pos hrt]
      cases hint : pyToInt ((dget raw kf.2).getD .vNone) with
      | ok n => simp [dget_dset_ne _ _ _ _ h]
      | error e => simp [dget_dset_ne _ _ _ _ h, hne]
    · rw [if_neg hrt]
      by_cases hpf : (kf.1 = "poster" || kf.1 = "fanart") = true
      · simp [hpf]
      · simp [hpf, dget_dset_ne _ _ _ _ h]
  · rw [if_neg htr]
    simp [hne]

/-- Folding table entries none of which has the given output key preserves
that key's binding and its `empty_fields` membership. -/
theorem cleanFold_frame (raw : PyDict) (t : List (String × String)) (key : String)
    (ht : ∀ p ∈ t, p.1 ≠ key) (acc : CleanAcc) :
    dget (t.foldl (cleanStep raw) acc).clean key = dget acc.clean key ∧
    (key ∈ (t.foldl (cleanStep raw) acc).empty ↔ key ∈ acc.empty) := by
  induction t generalizing acc with
  | nil => simp
  | cons p rest ih =>
    have h1 := cleanStep_frame raw acc p key (ht p (by simp))
    have h2 := ih (fun q hq => ht q (by simp [hq])) (cleanStep raw acc p)
    rw [List.foldl_cons]
    exact ⟨h2.1.trans h1.1, h2.2.trans h1.2⟩

/-- A loop step for a key other than `poster` / `fanart` leaves
`posters_urls` unchanged. -/
theorem cleanStep_posters_frame (raw : PyDict) (acc : CleanAcc) (kf : String × String)
    (h1 : kf.1 ≠ "poster") (h2 : kf.1 ≠ "fanart") :
    (cleanStep raw acc kf).posters = acc.posters := by
  unfold cleanStep
  by_cases htr : truthy ((dget raw kf.2).getD .vNone) = true
  · rw [if_pos htr]
    by_cases hrt : kf.1 = "runtime"
    · rw [if_pos hrt]
      cases pyToInt ((dget raw kf.2).getD .vNone) with
      | ok n => rfl
      | error e => rfl
    · rw [if_neg hrt, if_neg (by simp [h1, h2])]
  · rw [if_neg htr]

theorem cleanFold_posters_frame (raw : PyDict) (t : List (String × String))
    (ht : ∀ p ∈ t, p.1 ≠ "poster" ∧ p.1 ≠ "fanart") (acc : CleanAcc) :
    (t.foldl (cleanStep raw) acc).posters = acc.posters := by
  induction t generalizing acc with
  | nil => simp
  | cons p rest ih =>
    rw [List.foldl_cons,
      ih (fun q hq => ht q (by simp [hq])) _,
      cleanStep_posters_frame raw acc p (ht p (by simp)).1 (ht p (by simp)).2]

/-- Processing a table whose keys are distinct: the entry whose mapped
source value is absent or falsy contributes its key to `empty_fields` and
leaves `clean_film_info` without it. -/
theorem cleanFold_falsy (raw : PyDict) (t : List (String × String)) (key field : String)
    (acc : CleanAcc)
    (hnd : (t.map Prod.fst).Nodup) (hmem : (key, field) ∈ t)
    (hfalsy : truthy ((dget raw field).getD .vNone) = false) :
    dget (t.foldl (cleanStep raw) acc).clean key = dget acc.clean key ∧
    key ∈ (t.foldl (cleanStep raw) acc).empty := by
  induction t generalizing acc with
  | nil => cases hmem
  | cons p rest ih =>
    rw [List.map_cons, List.nodup_cons] at hnd
    rw [List.foldl_cons]
    rcases List.mem_cons.mp hmem with heq | htail
    · -- the head is the entry for `key`
      subst heq
      have hstep : cleanStep raw acc (key, field) =
          { acc with empty := acc.empty ++ [key] } := by
        unfold cleanStep
        simp [hfalsy]
      have hkeys : ∀ q ∈ rest, q.1 ≠ key := by
        intro q hq hqk
        apply hnd.1
        have hm : q.1 ∈ rest.map Prod.fst := List.mem_map_of_mem Prod.fst hq
        rwa [hqk] at hm
      have hframe := cleanFold_frame raw rest key hkeys (cleanStep raw acc (key, field))
      refine ⟨?_, ?_⟩
      · rw [hframe.1, hstep]
      · rw [hframe.2, hstep]
        simp
    · -- the entry for `key` sits in the tail; the head has a different key
      have hpk : p.1 ≠ key := by
        intro hk
        apply hnd.1
        have hm : (key, field).1 ∈ rest.map Prod.fst := List.mem_map_of_mem Prod.fst htail
        rw [hk]
        exact hm
      have hstep := cleanStep_frame raw acc p key hpk
      have := ih (cleanStep raw acc p) hnd.2 htail
      exact ⟨this.1.trans hstep.1, this.2⟩

/-- C8: For every raw film record and every output key of the fixed
field-name table: if the mapped source value is absent or falsy, the output
document produced by film normalization does not contain that key, and that
key is listed in empty_fields. -/
theorem c8_normalize_omits_falsy (raw : PyDict) (key api_field : String)
    (hmem : (key, api_field) ∈ FILM_INFO_STRUCTURE)
    (hfalsy : truthy ((dget raw api_field).getD .vNone) = false) :
    containsKey (get_clean_film_info raw).1 key = false ∧
    key ∈ (cleanFilmAcc raw).empty := by
  have h := cleanFold_falsy raw FILM_INFO_STRUCTURE key api_field
    ⟨[], [], [("poster", .vNone), ("cover", .vNone)]⟩ (by decide) hmem hfalsy
  refine ⟨?_, h.2⟩
  have hnone : dget (cleanFilmAcc raw).clean key = none := h.1
  show (dget (cleanFilmAcc raw).clean key).isSome = false
  rw [hnone]
  rfl

/-- C8 witness: a record lacking `nameRu` omits `title` and reports it. -/
theorem c8_normalize_omits_falsy_witness :
    containsKey (get_clean_film_info [("year", PyVal.vStr "2010")]).1 "title" = false ∧
    "title" ∈ (cleanFilmAcc [("year", PyVal.vStr "2010")]).empty :=
  c8_normalize_omits_falsy [("year", PyVal.vStr "2010")] "title" "nameRu" (by decide) rfl

-- ======================= C4: runtime normalisation =======================

/-- The table entries before the `runtime` row. -/
def FIS_pre : List (String × String) :=
  [ ("title", "nameRu"), ("originaltitle", "nameOriginal"),
    ("year", "year"), ("plot", "description") ]

/-- The table entries after the `runtime` row. -/
def FIS_post : List (String × String) :=
  [ ("rating", "ratingKinopoisk"), ("votes", "ratingKinopoiskVoteCount"),
    ("mpaa", "ratingMpaa"), ("certification", "ratingMpaa"),
    ("genres", "genres"), ("countries", "countries"),
    ("kinopoisk_id", "kinopoiskId"), ("poster", "posterUrl"), ("fanart", "coverUrl") ]

theorem cleanFilmAcc_runtime_split (raw : PyDict) :
    cleanFilmAcc raw =
      FIS_post.foldl (cleanStep raw)
        (cleanStep raw
          (FIS_pre.foldl (cleanStep raw) ⟨[], [], [("poster", .vNone), ("cover", .vNone)]⟩)
          ("runtime", "filmLength")) := rfl

/-- C4 (amended): if the source runtime value is present, truthy and parses
as an integer, the normalized runtime is that value times 60 and `runtime`
is not in `empty_fields`; if it is present and truthy but unparsable, the
`runtime` key is set to `None` (a non-value the sidecar writer filters out,
but the key is present, not omitted) and `runtime` is listed in
`empty_fields`; no error is thrown in either case. -/
theorem c4_runtime_amended (raw : PyDict) (v : PyVal)
    (hv : dget raw "filmLength" = some v) (htr : truthy v = true) :
    (∀ n : Int, pyToInt v = .ok n →
       dget (get_clean_film_info raw).1 "runtime" = some (.vInt (n * 60)) ∧
       "runtime" ∉ (cleanFilmAcc raw).empty) ∧
    (∀ e : String, pyToInt v = .error e →
       dget (get_clean_film_info raw).1 "runtime" = some .vNone ∧
       "runtime" ∈ (cleanFilmAcc raw).empty) := by
  have hpre : ∀ p ∈ FIS_pre, p.1 ≠ "runtime" := by decide
  have hpost : ∀ p ∈ FIS_post, p.1 ≠ "runtime" := by decide
  have hvv : (dget raw "filmLength").getD .vNone = v := by rw [hv]; rfl
  have h1 := cleanFold_frame raw FIS_pre "runtime" hpre
    ⟨[], [], [("poster", .vNone), ("cover", .vNone)]⟩
  constructor
  · intro n hn
    have hstep : cleanStep raw
        (FIS_pre.foldl (cleanStep raw) ⟨[], [], [("poster", .vNone), ("cover", .vNone)]⟩)
        ("runtime", "filmLength") =
        { FIS_pre.foldl (cleanStep raw) ⟨[], [], [("poster", .vNone), ("cover", .vNone)]⟩ with
          clean := dset (FIS_pre.foldl (cleanStep raw)
            ⟨[], [], [("poster", .vNone), ("cover", .vNone)]⟩).clean "runtime"
            (.vInt (n * 60)) } := by
      unfold cleanStep
      rw [hvv, htr, hn]
      simp
    have h2 := cleanFold_frame raw FIS_post "runtime"
      hpost (cleanStep raw
        (FIS_pre.foldl (cleanStep raw) ⟨[], [], [("poster", .vNone), ("cover", .vNone)]⟩)
        ("runtime", "filmLength"))
    constructor
    · show dget (cleanFilmAcc raw).clean "runtime" = some (.vInt (n * 60))
      rw [cleanFilmAcc_runtime_split, h2.1, hstep]
      exact dget_dset_self _ _ _
    · intro hmem
      rw [cleanFilmAcc_runtime_split] at hmem
      have := h2.2.mp hmem
      rw [hstep] at this
      exact absurd (h1.2.mp this) (by simp)
  · intro e he
    have hstep : cleanStep raw
        (FIS_pre.foldl (cleanStep raw) ⟨[], [], [("poster", .vNone), ("cover", .vNone)]⟩)
        ("runtime", "filmLength") =
        { empty := (FIS_pre.foldl (cleanStep raw)
            ⟨[], [], [("poster", .vNone), ("cover", .vNone)]⟩).empty ++ ["runtime"],
          clean := dset (FIS_pre.foldl (cleanStep raw)
            ⟨[], [], [("poster", .vNone), ("cover", .vNone)]⟩).clean "runtime" .vNone,
          posters := (FIS_pre.foldl (cleanStep raw)
            ⟨[], [], [("poster", .vNone), ("cover", .vNone)]⟩).posters } := by
      unfold cleanStep
      rw [hvv, htr, he]
      simp
    have h2 := cleanFold_frame raw FIS_post "runtime"
      hpost (cleanStep raw
        (FIS_pre.foldl (cleanStep raw) ⟨[], [], [("poster", .vNone), ("cover", .vNone)]⟩)
        ("runtime", "filmLength"))
    constructor
    · show dget (cleanFilmAcc raw).clean "runtime" = some .vNone
      rw [cleanFilmAcc_runtime_split, h2.1, hstep]
      exact dget_dset_self _ _ _
    · rw [cleanFilmAcc_runtime_split]
      apply h2.2.mpr
      rw [hstep]
      simp

/-- C4 counterexample: for the record `dict(filmLength='2h')` the claim
says the runtime key is omitted from the output document; in fact film
normalization stores the key with value `None` (while also listing it in
`empty_fields`), so the document does contain the key. -/
theorem c4_runtime_cex :
    containsKey (get_clean_film_info [("filmLength", PyVal.vStr "2h")]).1 "runtime" = true ∧
    dget (get_clean_film_info [("filmLength", PyVal.vStr "2h")]).1 "runtime" =
      some PyVal.vNone ∧
    "runtime" ∈ (cleanFilmAcc [("filmLength", PyVal.vStr "2h")]).empty :=
  ⟨rfl, rfl, by decide⟩

/-- C4 witness: `filmLength = '120'` normalises to `runtime = 7200`. -/
theorem c4_runtime_amended_witness :
    dget (get_clean_film_info [("filmLength", PyVal.vStr "120")]).1 "runtime" =
      some (PyVal.vInt 7200) ∧
    "runtime" ∉ (cleanFilmAcc [("filmLength", PyVal.vStr "120")]).empty :=
  (c4_runtime_amended [("filmLength", PyVal.vStr "120")] (PyVal.vStr "120") rfl rfl).1 120 rfl

-- ======================= C6: key extraction =======================

/-- Lemma: `searchYearGo` finds the least position at which the year pattern
matches, offset by its base. -/
theorem searchYearGo_found (cs : List Char) (k base : Nat)
    (hk : yearPatternAt (cs.drop k) = true)
    (hmin : ∀ j < k, yearPatternAt (cs.drop j) = false) :
    searchYearGo cs base = some (base + k) := by
  induction cs generalizing k base with
  | nil =>
    rw [List.drop_nil] at hk
    cases hk
  | cons c rest ih =>
    cases k with
    | zero =>
      rw [List.drop_zero] at hk
      unfold searchYearGo
      rw [if_pos hk, Nat.add_zero]
    | succ k' =>
      have h0 : yearPatternAt (c :: rest) = false := by
        simpa using hmin 0 (Nat.succ_pos _)
      unfold searchYearGo
      rw [if_neg (by simp [h0])]
      have hk2 : yearPatternAt (rest.drop k') = true := by simpa using hk
      have hmin2 : ∀ j < k', yearPatternAt (rest.drop j) = false := by
        intro j hj
        simpa using hmin (j + 1) (Nat.succ_lt_succ hj)
      rw [ih k' (base + 1) hk2 hmin2]
      congr 1
      omega

/-- Lemma: `searchYearGo` fails iff no position matches the year pattern. -/
theorem searchYearGo_none (cs : List Char) (base : Nat)
    (h : ∀ j < cs.length, yearPatternAt (cs.drop j) = false) :
    searchYearGo cs base = none := by
  induction cs generalizing base with
  | nil => rfl
  | cons c rest ih =>
    have h0 : yearPatternAt (c :: rest) = false := by simpa using h 0 (by simp)
    unfold searchYearGo
    rw [if_neg (by simp [h0])]
    exact ih (base + 1) (fun j hj => by
      simpa using h (j + 1) (by simpa using Nat.succ_lt_succ hj))

/-- C6: For every filename string containing a 4-digit run matching the
19xx-or-20xx pattern, key extraction returns the digits of the first such
match as the year, and as the title the substring before that match with
each separator character replaced by a space, whitespace runs collapsed,
and the result trimmed; for every filename with no such run it fails with
NoYear. -/
theorem c6_key_extraction (s : String) :
    (∀ k, yearPatternAt (s.data.drop k) = true →
       (∀ j < k, yearPatternAt (s.data.drop j) = false) →
       get_film_name_year s =
         .ok (String.mk (titleClean (s.data.take k)), String.mk ((s.data.drop k).take 4))) ∧
    ((∀ j < s.data.length, yearPatternAt (s.data.drop j) = false) →
       get_film_name_year s = .error (.noYearError ("У файла " ++ s
         ++ " год выпуска не найден.\nПроверьте имя файла."))) := by
  constructor
  · intro k hk hmin
    show (match searchYearGo s.data 0 with
      | some i => Except.ok (String.mk (titleClean (s.data.take i)),
          String.mk ((s.data.drop i).take 4))
      | none => Except.error (Err.noYearError ("У файла " ++ s
          ++ " год выпуска не найден.\nПроверьте имя файла."))) =
      Except.ok (String.mk (titleClean (s.data.take k)), String.mk ((s.data.drop k).take 4))
    rw [searchYearGo_found s.data k 0 hk hmin, Nat.zero_add]
  · intro h
    show (match searchYearGo s.data 0 with
      | some i => Except.ok (String.mk (titleClean (s.data.take i)),
          String.mk ((s.data.drop i).take 4))
      | none => Except.error (Err.noYearError ("У файла " ++ s
          ++ " год выпуска не найден.\nПроверьте имя файла."))) =
      Except.error (Err.noYearError ("У файла " ++ s
        ++ " год выпуска не найден.\nПроверьте имя файла."))
    rw [searchYearGo_none s.data 0 h]

/-- C6 witness: `Inception.2010.1080p` splits into title `Inception` and
year `2010` (first match at position 10); `bad_name` has no match and fails
with NoYear. -/
theorem c6_key_extraction_witness :
    get_film_name_year "Inception.2010.1080p" = .ok ("Inception", "2010") ∧
    get_film_name_year "bad_name" = .error (.noYearError
      "У файла bad_name год выпуска не найден.\nПроверьте имя файла.") := by
  constructor
  · have h := (c6_key_extraction "Inception.2010.1080p").1 10 (by decide) (by decide)
    exact h.trans (by rfl)
  · exact (c6_key_extraction "bad_name").2 (by decide)

-- ======================= C7: status-code contract =======================

/-- C7: For every catalog call and every HTTP status code: status 200
proceeds normally (the result is the body-processing of the response);
status 404 yields `None` rather than an exception; 401 raises the
invalid-credentials error; 402 the quota-exceeded error; 429 the rate-limit
error; any other status an unclassified connectivity error — identically
across the search, film-detail and staff-detail lookups. -/
theorem c7_status_mapping (env : Env) (title year film_id : String) (c : Nat) (b : PyVal)
    (hs : env.search title = .success ⟨c, b⟩)
    (hf : env.film film_id = .success ⟨c, b⟩)
    (ht : env.staff film_id = .success ⟨c, b⟩) :
    (c = 200 →
      get_film_id env title year = (get_film_id_body title year b).map (fun r => some r) ∧
      get_raw_film_info env film_id = (get_raw_film_info_body b).map (fun d => some d) ∧
      get_raw_staff_info env film_id MAX_ACTORS =
        (get_raw_staff_info_body MAX_ACTORS b).map (fun d => some d)) ∧
    (c = 404 →
      get_film_id env title year = .ok none ∧
      get_raw_film_info env film_id = .ok none ∧
      get_raw_staff_info env film_id MAX_ACTORS = .ok none) ∧
    (c = 401 →
      get_film_id env title year =
        .error (.unauthorisedError "Ошибка авторизации, проверьте токен API") ∧
      get_raw_film_info env film_id =
        .error (.unauthorisedError "Ошибка авторизации, проверьте токен API") ∧
      get_raw_staff_info env film_id MAX_ACTORS =
        .error (.unauthorisedError "Ошибка авторизации, проверьте токен API")) ∧
    (c = 402 →
      get_film_id env title year =
        .error (.requestLimitExceededError "Превышен дневной или общий лимит на запросы к API") ∧
      get_raw_film_info env film_id =
        .error (.requestLimitExceededError "Превышен дневной или общий лимит на запросы к API") ∧
      get_raw_staff_info env film_id MAX_ACTORS =
        .error (.requestLimitExceededError "Превышен дневной или общий лимит на запросы к API")) ∧
    (c = 429 →
      get_film_id env title year =
        .error (.tooManyRequestsError "Превышен секундный лимит на запросы к API") ∧
      get_raw_film_info env film_id =
        .error (.tooManyRequestsError "Превышен секундный лимит на запросы к API") ∧
      get_raw_staff_info env film_id MAX_ACTORS =
        .error (.tooManyRequestsError "Превышен секундный лимит на запросы к API")) ∧
    (c ≠ 200 → c ≠ 404 → c ≠ 401 → c ≠ 402 → c ≠ 429 →
      get_film_id env title year =
        .error (.apiConnectionError ("API вернул код: " ++ toString c)) ∧
      get_raw_film_info env film_id =
        .error (.apiConnectionError ("API вернул код: " ++ toString c)) ∧
      get_raw_staff_info env film_id MAX_ACTORS =
        .error (.apiConnectionError ("API вернул код: " ++ toString c))) := by
  refine ⟨?_, ?_, ?_, ?_, ?_, ?_⟩
  · rintro rfl
    refine ⟨?_, ?_, ?_⟩
    · unfold get_film_id
      rw [hs]
      rfl
    · unfold get_raw_film_info
      rw [hf]
      rfl
    · unfold get_raw_staff_info
      rw [ht]
      rfl
  · rintro rfl
    refine ⟨?_, ?_, ?_⟩
    · unfold get_film_id
      rw [hs]
      rfl
    · unfold get_raw_film_info
      rw [hf]
      rfl
    · unfold get_raw_staff_info
      rw [ht]
      rfl
  · rintro rfl
    refine ⟨?_, ?_, ?_⟩
    · unfold get_film_id
      rw [hs]
      rfl
    · unfold get_raw_film_info
      rw [hf]
      rfl
    · unfold get_raw_staff_info
      rw [ht]
      rfl
  · rintro rfl
    refine ⟨?_, ?_, ?_⟩
    · unfold get_film_id
      rw [hs]
      rfl
    · unfold get_raw_film_info
      rw [hf]
      rfl
    · unfold get_raw_staff_info
      rw [ht]
      rfl
  · rintro rfl
    refine ⟨?_, ?_, ?_⟩
    · unfold get_film_id
      rw [hs]
      rfl
    · unfold get_raw_film_info
      rw [hf]
      rfl
    · unfold get_raw_staff_info
      rw [ht]
      rfl
  · intro h200 h404 h401 h402 h429
    have hc : check_request_status c =
        .error (.apiConnectionError ("API вернул код: " ++ toString c)) := by
      unfold check_request_status
      rw [if_neg h401, if_neg h402, if_neg h429, if_neg h200, if_neg h404]
    refine ⟨?_, ?_, ?_⟩
    · simp only [get_film_id, hs, hc]
    · simp only [get_raw_film_info, hf, hc]
    · simp only [get_raw_staff_info, ht, hc]

/-- A constant environment answering 404 everywhere. -/
def env404 : Env :=
  ⟨fun _ => .success ⟨404, .vNone⟩, fun _ => .success ⟨404, .vNone⟩,
   fun _ => .success ⟨404, .vNone⟩, fun _ => .error "down", fun _ => none⟩

/-- C7 witness: on a 404 response, all three lookups return `None`. -/
theorem c7_status_mapping_witness :
    get_film_id env404 "t" "2010" = .ok none ∧
    get_raw_film_info env404 "42" = .ok none ∧
    get_raw_staff_info env404 "42" MAX_ACTORS = .ok none :=
  (c7_status_mapping env404 "t" "2010" "42" 404 .vNone rfl rfl rfl).2.1 rfl

-- ======================= C9: writer / fetcher recover locally =======================

/-- C9: the sidecar writer and the artwork fetcher never raise past their
own boundary: they are total functions into a (success-flag, message, file
system) triple; an internal failure of the `try` body always becomes the
flag `False` with the error message (files written before the failure
persist), and an internally successful run always becomes `True` with the
success message. -/
theorem c9_writer_fetcher_recover (cfi csi pu : PyVal)
    (sp : List (Option PyVal × PyVal)) (path name root base : String) (env : Env)
    (fs fs2 : FS) :
    (∀ e fs1, create_nfo_core cfi csi path name env fs = .error (e, fs1) →
       create_nfo cfi csi path name env fs = (false, "Ошибка при создании *.nfo: " ++ e, fs1)) ∧
    (∀ fs1, create_nfo_core cfi csi path name env fs = .ok fs1 →
       create_nfo cfi csi path name env fs = (true, "*.nfo файл успешно создан.", fs1)) ∧
    (∀ e fs1, create_posters_core pu sp env root base fs2 = .error (e, fs1) →
       create_posters pu sp env root base fs2 =
         (false, "Ошибка при сохранении постеров: " ++ e, fs1)) ∧
    (∀ fs1, create_posters_core pu sp env root base fs2 = .ok fs1 →
       create_posters pu sp env root base fs2 = (true, "Постеры успешно сохранены.", fs1)) := by
  refine ⟨?_, ?_, ?_, ?_⟩
  · intro e fs1 h
    unfold create_nfo
    rw [h]
  · intro fs1 h
    unfold create_nfo
    rw [h]
  · intro e fs1 h
    unfold create_posters
    rw [h]
  · intro fs1 h
    unfold create_posters
    rw [h]

/-- C9 witness: a malformed document (an int where a dict is expected) and
a failing image download are both converted into `(False, message)` — with
the partial artwork (here: none) retained — instead of raising. -/
theorem c9_writer_fetcher_recover_witness :
    create_nfo (.vInt 3) (.vDict []) "/m" "b" env404 [] =
      (false, "Ошибка при создании *.nfo: Для clean_film_info ожидался dict, Получен int",
        []) ∧
    create_posters (.vDict [("poster", .vStr "http://p")]) [] env404 "/m" "b" [] =
      (false, "Ошибка при сохранении постеров: down", []) :=
  ⟨(c9_writer_fetcher_recover (.vInt 3) (.vDict []) (.vDict [("poster", .vStr "http://p")])
      [] "/m" "b" "/m" "b" env404 [] []).1
      "Для clean_film_info ожидался dict, Получен int" [] rfl,
   (c9_writer_fetcher_recover (.vInt 3) (.vDict []) (.vDict [("poster", .vStr "http://p")])
      [] "/m" "b" "/m" "b" env404 [] []).2.2.1 "down" [] rfl⟩

-- ======================= C1/C2: candidate resolution =======================

/-- The year field of a candidate (empty when absent or not a string). -/
def yrStr (f : PyVal) : String :=
  match f with
  | .vDict d =>
    match dget d "year" with
    | some (.vStr s) => s
    | _ => ""
  | _ => ""

/-- The year of a candidate read as a number. -/
def yrNat (f : PyVal) : Nat :=
  digitsToNat (yrStr f).data

/-- The film identifier of a candidate. -/
def fidOf (f : PyVal) : PyVal :=
  match f with
  | .vDict d => (dget d "filmId").getD .vNone
  | _ => .vNone

/-- The `nameRu` of a candidate. -/
def nameOf (f : PyVal) : PyVal :=
  match f with
  | .vDict d => (dget d "nameRu").getD .vNone
  | _ => .vNone

/-- A well-formed search candidate in the sense of the spec's data model:
a record carrying `filmId`, `nameRu`, and a 4-digit string `year`. -/
def candOK (f : PyVal) : Bool :=
  match f with
  | .vDict d =>
    (match dget d "year" with
     | some (.vStr s) => s.length = 4 && s.data.all isDig
     | _ => false) &&
    (dget d "filmId").isSome && (dget d "nameRu").isSome
  | _ => false

/-- Message of the exact-match return of `get_film_id`. -/
def foundMsg (nm : PyVal) (year : String) : String :=
  "Данные о фильме " ++ pyStr nm ++ " (" ++ year ++ ") успешно получены"

/-- Message set by each non-matching loop iteration of `get_film_id`. -/
def noMatchMsg (title year : String) : String :=
  "Год выпуска при поиске " ++ title ++ " (" ++ year
    ++ ") не найден в ответе API, сохранены данные о фильме "
    ++ "с самым свежим годом релиза."

theorem candOK_elim (f : PyVal) (h : candOK f = true) :
    ∃ d, f = .vDict d ∧
      dget d "year" = some (.vStr (yrStr f)) ∧
      (yrStr f).length = 4 ∧ (yrStr f).data.all isDig = true ∧
      (∃ fid, dget d "filmId" = some fid ∧ fidOf f = fid) ∧
      (∃ nm, dget d "nameRu" = some nm ∧ nameOf f = nm) := by
  cases f with
  | vDict d =>
    refine ⟨d, rfl, ?_⟩
    rw [candOK] at h
    rcases hy : dget d "year" with _ | v
    · rw [hy] at h
      simp at h
    · cases v with
      | vStr s =>
        rw [hy] at h
        simp only [Bool.and_eq_true] at h
        obtain ⟨⟨hys, hfid⟩, hnm⟩ := h
        have hyr : yrStr (.vDict d) = s := by
          simp [yrStr, hy]
        rcases hfidv : dget d "filmId" with _ | fid
        · rw [hfidv] at hfid
          simp at hfid
        rcases hnmv : dget d "nameRu" with _ | nm
        · rw [hnmv] at hnm
          simp at hnm
        rw [hyr]
        simp only [Bool.and_eq_true, decide_eq_true_eq] at hys
        exact ⟨rfl, hys.1, hys.2, ⟨fid, rfl, by simp [fidOf, hfidv]⟩,
          ⟨nm, rfl, by simp [nameOf, hnmv]⟩⟩
      | vNone => rw [hy] at h; simp at h
      | vInt n => rw [hy] at h; simp at h
      | vList l => rw [hy] at h; simp at h
      | vDict d2 => rw [hy] at h; simp at h
  | vNone => cases h
  | vStr s => cases h
  | vInt n => cases h
  | vList l => cases h

theorem length_four_exists (l : List Char) (h : l.length = 4) :
    ∃ a b c d, l = [a, b, c, d] := by
  rcases l with _ | ⟨a, l⟩
  · simp at h
  rcases l with _ | ⟨b, l⟩
  · simp at h
  rcases l with _ | ⟨c, l⟩
  · simp at h
  rcases l with _ | ⟨d, l⟩
  · simp at h
  rcases l with _ | ⟨e, l⟩
  · exact ⟨a, b, c, d, rfl⟩
  · simp at h

/-- On equal-length digit strings, Python's lexicographic `<` agrees with
the numeric order (stated for the 4-digit years the resolver compares). -/
theorem pyStrLtL_iff_nat (a b : List Char) (ha4 : a.length = 4) (hb4 : b.length = 4)
    (had : a.all isDig = true) (hbd : b.all isDig = true) :
    pyStrLtL a b = true ↔ digitsToNat a < digitsToNat b := by
  obtain ⟨a1, a2, a3, a4, rfl⟩ := length_four_exists a ha4
  obtain ⟨b1, b2, b3, b4, rfl⟩ := length_four_exists b hb4
  simp only [List.all_cons, List.all_nil, Bool.and_eq_true, isDig,
    decide_eq_true_eq] at had hbd
  obtain ⟨⟨ha1l, ha1u⟩, ⟨ha2l, ha2u⟩, ⟨ha3l, ha3u⟩, ⟨ha4l, ha4u⟩, -⟩ := had
  obtain ⟨⟨hb1l, hb1u⟩, ⟨hb2l, hb2u⟩, ⟨hb3l, hb3u⟩, ⟨hb4l, hb4u⟩, -⟩ := hbd
  simp only [pyStrLtL, digitsToNat, List.foldl]
  split_ifs <;> simp <;> omega

/-- One scan-loop iteration on a well-formed candidate whose year is not
the requested one: the running maximum is updated and the loop proceeds,
with the message set to the degraded-match message. -/
theorem filmsGo_cons_step (title year : String) (films : List PyVal) (f : PyVal)
    (rest : List PyVal) (idx : Nat) (ly : String) (li : Nat) (msg : String)
    (hf : candOK f = true) (hne : yrStr f ≠ year) :
    filmsGo title year films (f :: rest) idx ly li msg =
      filmsGo title year films rest (idx + 1)
        (if pyStrLt ly (yrStr f) then (yrStr f, idx) else (ly, li)).1
        (if pyStrLt ly (yrStr f) then (yrStr f, idx) else (ly, li)).2
        (noMatchMsg title year) := by
  obtain ⟨d, hfd, hy, h4, hd, ⟨fid, hfid, hfid2⟩, ⟨nm, hnm, hnm2⟩⟩ := candOK_elim f hf
  subst hfd
  obtain ⟨c1, c2, c3, c4, hdata⟩ := length_four_exists (yrStr (.vDict d)).data h4
  have hdigit : pyIsDigit (yrStr (.vDict d)) = true := by
    rw [pyIsDigit, hdata]
    rw [hdata] at hd
    simpa using hd
  simp only [filmsGo, hy, h4, hdigit]
  rw [if_neg (by simp), if_neg hne]
  rfl

/-- One scan-loop iteration on a well-formed candidate whose year equals
the requested one: the loop returns that candidate immediately. -/
theorem filmsGo_cons_hit (title year : String) (films : List PyVal) (f : PyVal)
    (rest : List PyVal) (idx : Nat) (ly : String) (li : Nat) (msg : String)
    (hf : candOK f = true) (hyf : yrStr f = year) :
    filmsGo title year films (f :: rest) idx ly li msg =
      .ok (true, pyStr (fidOf f), foundMsg (nameOf f) year) := by
  obtain ⟨d, hfd, hy, h4, hd, ⟨fid, hfid, hfid2⟩, ⟨nm, hnm, hnm2⟩⟩ := candOK_elim f hf
  subst hfd
  obtain ⟨c1, c2, c3, c4, hdata⟩ := length_four_exists (yrStr (.vDict d)).data h4
  have hdigit : pyIsDigit (yrStr (.vDict d)) = true := by
    rw [pyIsDigit, hdata]
    rw [hdata] at hd
    simpa using hd
  simp only [filmsGo, hy, h4, hdigit]
  rw [if_neg (by simp), if_pos hyf, hnm, hfid, hfid2, hnm2]
  rfl

/-- The scan loop returns the first exact-year candidate, wherever the
loop starts and whatever the accumulator values are. -/
theorem filmsGo_match (title year : String) (films : List PyVal) (f : PyVal)
    (post : List PyVal) (hf : candOK f = true) (hyf : yrStr f = year) :
    ∀ (pre : List PyVal), (∀ g ∈ pre, candOK g = true ∧ yrStr g ≠ year) →
    ∀ (idx : Nat) (ly : String) (li : Nat) (msg : String),
    filmsGo title year films (pre ++ f :: post) idx ly li msg =
      .ok (true, pyStr (fidOf f), foundMsg (nameOf f) year) := by
  intro pre
  induction pre with
  | nil =>
    intro _ idx ly li msg
    rw [List.nil_append]
    exact filmsGo_cons_hit title year films f post idx ly li msg hf hyf
  | cons g pre' ih =>
    intro hpre idx ly li msg
    rw [List.cons_append,
      filmsGo_cons_step title year films g (pre' ++ f :: post) idx ly li msg
        (hpre g (by simp)).1 (hpre g (by simp)).2]
    exact ih (fun q hq => hpre q (by simp [hq])) _ _ _ _

/-- The running maximum of the scan loop: `idx` is the position of the
list head, the accumulator is `(last_release_year, last_released_film_idx)`. -/
def runMax (idx : Nat) (acc : String × Nat) : List PyVal → String × Nat
  | [] => acc
  | f :: rest =>
    runMax (idx + 1) (if pyStrLt acc.1 (yrStr f) then (yrStr f, idx) else acc) rest

/-- When no candidate's year matches, the scan loop falls through to the
final return on the running-maximum index, with the degraded-match message
(unless the loop body never ran). -/
theorem filmsGo_nomatch (title year : String) (films : List PyVal) :
    ∀ (rest : List PyVal), (∀ g ∈ rest, candOK g = true ∧ yrStr g ≠ year) →
    ∀ (idx : Nat) (ly : String) (li : Nat) (msg : String),
    filmsGo title year films rest idx ly li msg =
      finalReturn films (runMax idx (ly, li) rest).2
        (if rest.isEmpty then msg else noMatchMsg title year) := by
  intro rest
  induction rest with
  | nil =>
    intro _ idx ly li msg
    rfl
  | cons f rest' ih =>
    intro hall idx ly li msg
    rw [filmsGo_cons_step title year films f rest' idx ly li msg
      (hall f (by simp)).1 (hall f (by simp)).2]
    rw [ih (fun q hq => hall q (by simp [hq])) (idx + 1) _ _ (noMatchMsg title year)]
    have hmsg : (if rest'.isEmpty then noMatchMsg title year else noMatchMsg title year) =
        noMatchMsg title year := by
      exact ite_self _
    rw [hmsg]
    rfl

/-- Characterisation of the running maximum over well-formed candidates:
the accumulator either survives untouched or lands on the position of a
strictly greater year that is the first occurrence of the maximum; the
result dominates every scanned year and the initial accumulator. -/
theorem runMax_spec :
    ∀ (fs : List PyVal) (idx : Nat) (y0 : String) (i0 : Nat),
    (∀ f ∈ fs, candOK f = true) →
    y0.length = 4 → y0.data.all isDig = true →
    ((runMax idx (y0, i0) fs).1.length = 4 ∧
      (runMax idx (y0, i0) fs).1.data.all isDig = true) ∧
    (runMax idx (y0, i0) fs = (y0, i0) ∨
      ∃ k, ∃ hk : k < fs.length, (runMax idx (y0, i0) fs).2 = idx + k ∧
        (runMax idx (y0, i0) fs).1 = yrStr fs[k] ∧
        digitsToNat y0.data < yrNat fs[k] ∧
        ∀ j, ∀ hj : j < fs.length, j < k → yrNat fs[j] < yrNat fs[k]) ∧
    (∀ k, ∀ hk : k < fs.length, yrNat fs[k] ≤ digitsToNat (runMax idx (y0, i0) fs).1.data) ∧
    digitsToNat y0.data ≤ digitsToNat (runMax idx (y0, i0) fs).1.data := by
  intro fs
  induction fs with
  | nil =>
    intro idx y0 i0 _ h4 hd
    refine ⟨⟨h4, hd⟩, Or.inl rfl, ?_, le_refl _⟩
    intro k hk
    simp at hk
  | cons f rest ih =>
    intro idx y0 i0 hall h4 hd
    have hfc := hall f (by simp)
    obtain ⟨df, hfd, hyf, hf4, hfdig, -, -⟩ := candOK_elim f hfc
    have hrest : ∀ g ∈ rest, candOK g = true := fun g hg => hall g (by simp [hg])
    by_cases hlt : pyStrLt y0 (yrStr f) = true
    · have hstep : runMax idx (y0, i0) (f :: rest) = runMax (idx + 1) (yrStr f, idx) rest := by
        simp only [runMax, hlt, if_true]
      have hnat : digitsToNat y0.data < yrNat f :=
        (pyStrLtL_iff_nat y0.data (yrStr f).data h4 hf4 hd hfdig).mp hlt
      obtain ⟨ihWf, ihCase, ihUb, ihLb⟩ := ih (idx + 1) (yrStr f) idx hrest hf4 hfdig
      rw [hstep]
      refine ⟨ihWf, ?_, ?_, hnat.le.trans ihLb⟩
      · rcases ihCase with heq | ⟨k, hk, hidx, hyk, hltk, hmin⟩
        · refine Or.inr ⟨0, by simp, ?_, ?_, ?_, ?_⟩
          · rw [heq]
            simp
          · rw [heq]
            simp
          · simpa using hnat
          · intro j hj hj0
            omega
        · refine Or.inr ⟨k + 1, by simpa using Nat.succ_lt_succ hk, ?_, ?_, ?_, ?_⟩
          · rw [hidx]
            omega
          · simpa using hyk
          · simpa using hnat.trans hltk
          · intro j hj hjk
            cases j with
            | zero => simpa using hltk
            | succ j' =>
              have hj' : j' < rest.length := by simpa using hj
              simpa using hmin j' hj' (by omega)
      · intro k hk
        cases k with
        | zero => simpa using ihLb
        | succ k' =>
          have hk' : k' < rest.length := by simpa using hk
          simpa using ihUb k' hk'
    · rw [Bool.not_eq_true] at hlt
      have hstep : runMax idx (y0, i0) (f :: rest) = runMax (idx + 1) (y0, i0) rest := by
        simp [runMax, hlt]
      have hle : yrNat f ≤ digitsToNat y0.data := by
        by_contra hc
        push_neg at hc
        have := (pyStrLtL_iff_nat y0.data (yrStr f).data h4 hf4 hd hfdig).mpr hc
        rw [show pyStrLtL y0.data (yrStr f).data = pyStrLt y0 (yrStr f) from rfl, hlt] at this
        cases this
      obtain ⟨ihWf, ihCase, ihUb, ihLb⟩ := ih (idx + 1) y0 i0 hrest h4 hd
      rw [hstep]
      refine ⟨ihWf, ?_, ?_, ihLb⟩
      · rcases ihCase with heq | ⟨k, hk, hidx, hyk, hltk, hmin⟩
        · exact Or.inl heq
        · refine Or.inr ⟨k + 1, by simpa using Nat.succ_lt_succ hk, ?_, ?_, ?_, ?_⟩
          · rw [hidx]
            omega
          · simpa using hyk
          · simpa using hltk
          · intro j hj hjk
            cases j with
            | zero => simpa using Nat.lt_of_le_of_lt hle hltk
            | succ j' =>
              have hj' : j' < rest.length := by simpa using hj
              simpa using hmin j' hj' (by omega)
      · intro k hk
        cases k with
        | zero => simpa using hle.trans ihLb
        | succ k' =>
          have hk' : k' < rest.length := by simpa using hk
          simpa using ihUb k' hk'

/-- The final return of the scan loop on a position holding a well-formed
candidate yields that candidate's identifier with `is_year_found = False`. -/
theorem finalReturn_candOK (films : List PyVal) (j : Nat) (hj : j < films.length)
    (hcand : candOK films[j] = true) (msg : String) :
    finalReturn films j msg = .ok (false, pyStr (fidOf films[j]), msg) := by
  obtain ⟨d, hfd, -, -, -, ⟨fid, hfid, hfid2⟩, -⟩ := candOK_elim films[j] hcand
  unfold finalReturn
  rw [List.get?_eq_getElem?, List.getElem?_eq_getElem hj, hfd]
  rw [hfd] at hfid2
  simp [hfid, hfid2]

/-- C1: For every non-empty candidate list whose year fields are all
4-digit strings (well-formed candidates) and every requested year: if some
candidate's year equals the requested year, resolution returns
`year_matched = true` and the first such candidate's film identifier,
regardless of its position; if no candidate's year matches, resolution
returns `year_matched = false` and the identifier of the candidate with
the numerically largest year, ties broken by first occurrence. -/
theorem c1_candidate_resolution (title year : String) (films : List PyVal)
    (hne : films ≠ []) (hall : ∀ f ∈ films, candOK f = true) :
    (∀ pre f post, films = pre ++ f :: post →
       (∀ g ∈ pre, yrStr g ≠ year) → yrStr f = year →
       filmsScan title year films = .ok (true, pyStr (fidOf f), foundMsg (nameOf f) year)) ∧
    ((∀ f ∈ films, yrStr f ≠ year) →
       ∃ j, ∃ hj : j < films.length,
         filmsScan title year films =
           .ok (false, pyStr (fidOf films[j]), noMatchMsg title year) ∧
         (∀ i, ∀ hi : i < films.length, yrNat films[i] ≤ yrNat films[j]) ∧
         (∀ i, ∀ hi : i < films.length, i < j → yrNat films[i] < yrNat films[j])) := by
  constructor
  · intro pre f post hsplit hpre hyf
    have hf : candOK f = true := hall f (by rw [hsplit]; simp)
    have hpre2 : ∀ g ∈ pre, candOK g = true ∧ yrStr g ≠ year := fun g hg =>
      ⟨hall g (by rw [hsplit]; simp [hg]), hpre g hg⟩
    unfold filmsScan
    rw [hsplit]
    exact filmsGo_match title year _ f post hf hyf pre hpre2 0 "0000" 0 ""
  · intro hnom
    have hall2 : ∀ g ∈ films, candOK g = true ∧ yrStr g ≠ year := fun g hg =>
      ⟨hall g hg, hnom g hg⟩
    have hfe : films.isEmpty = false := by
      cases films with
      | nil => exact absurd rfl hne
      | cons a l => rfl
    have hrw := filmsGo_nomatch title year films films hall2 0 "0000" 0 ""
    rw [hfe] at hrw
    obtain ⟨-, hcase, hub, -⟩ := runMax_spec films 0 "0000" 0 hall rfl rfl
    rcases hcase with heq | ⟨k, hk, hidx, hyk, -, hmin⟩
    · -- running maximum never moved: every year is 0000, index 0 is the answer
      have hj0 : 0 < films.length := List.length_pos.mpr hne
      refine ⟨0, hj0, ?_, ?_, ?_⟩
      · show filmsScan title year films = _
        unfold filmsScan
        rw [hrw, heq]
        exact finalReturn_candOK films 0 hj0 (hall _ (by simp [List.getElem_mem])) _
      · intro i hi
        have h1 := hub i hi
        have h2 := hub 0 hj0
        rw [heq] at h1 h2
        have hzero : digitsToNat ("0000" : String).data = 0 := rfl
        rw [hzero] at h1 h2
        omega
      · intro i hi hlt0
        omega
    · -- running maximum landed on the first occurrence of the largest year
      refine ⟨k, hk, ?_, ?_, ?_⟩
      · show filmsScan title year films = _
        unfold filmsScan
        rw [hrw, hidx, Nat.zero_add]
        exact finalReturn_candOK films k hk (hall _ (by simp [List.getElem_mem])) _
      · intro i hi
        have h1 := hub i hi
        rw [hyk] at h1
        exact h1
      · intro i hi hik
        exact hmin i hi hik

/-- C1 witness: with candidates `[(id 1, year 2009), (id 2, year 2010)]`
and requested year 2010, resolution returns `(True, '2')`. -/
theorem c1_candidate_resolution_witness :
    filmsScan "Inception" "2010"
      [.vDict [("filmId", .vInt 1), ("nameRu", .vStr "A"), ("year", .vStr "2009")],
       .vDict [("filmId", .vInt 2), ("nameRu", .vStr "B"), ("year", .vStr "2010")]] =
      .ok (true, "2", "Данные о фильме B (2010) успешно получены") := by
  have h := (c1_candidate_resolution "Inception" "2010"
      [.vDict [("filmId", .vInt 1), ("nameRu", .vStr "A"), ("year", .vStr "2009")],
       .vDict [("filmId", .vInt 2), ("nameRu", .vStr "B"), ("year", .vStr "2010")]]
      (List.cons_ne_nil _ _) (by decide)).1
      [.vDict [("filmId", .vInt 1), ("nameRu", .vStr "A"), ("year", .vStr "2009")]]
      (.vDict [("filmId", .vInt 2), ("nameRu", .vStr "B"), ("year", .vStr "2010")])
      [] rfl (by decide) rfl
  exact h.trans rfl

/-- A scan-loop iteration on a candidate whose year value is a string that
is not exactly 4 digits raises `APIAnswerWrongDataError` at once. -/
theorem filmsGo_cons_bad (title year : String) (films : List PyVal) (d : PyDict)
    (rest : List PyVal) (idx : Nat) (ly : String) (li : Nat) (msg : String) (y : String)
    (hy : dget d "year" = some (.vStr y)) (hbad : y.length ≠ 4 ∨ pyIsDigit y = false) :
    filmsGo title year films (.vDict d :: rest) idx ly li msg =
      .error (.apiAnswerWrongDataError
        "В ответе формат данных года не соответствует ожидаемым") := by
  have hcond : (decide (y.length ≠ 4) || !pyIsDigit y) = true := by
    rcases hbad with h | h
    · simp [h]
    · simp [h]
  simp only [filmsGo, hy, hcond, if_true]

/-- The malformed-year error fires for the first malformed candidate when
every earlier candidate is well-formed and non-matching. -/
theorem filmsGo_bad_after (title year : String) (films : List PyVal) (d : PyDict)
    (post : List PyVal) (y : String)
    (hy : dget d "year" = some (.vStr y)) (hbad : y.length ≠ 4 ∨ pyIsDigit y = false) :
    ∀ (pre : List PyVal), (∀ g ∈ pre, candOK g = true ∧ yrStr g ≠ year) →
    ∀ (idx : Nat) (ly : String) (li : Nat) (msg : String),
    filmsGo title year films (pre ++ .vDict d :: post) idx ly li msg =
      .error (.apiAnswerWrongDataError
        "В ответе формат данных года не соответствует ожидаемым") := by
  intro pre
  induction pre with
  | nil =>
    intro _ idx ly li msg
    rw [List.nil_append]
    exact filmsGo_cons_bad title year films d post idx ly li msg y hy hbad
  | cons g pre' ih =>
    intro hpre idx ly li msg
    rw [List.cons_append,
      filmsGo_cons_step title year films g (pre' ++ .vDict d :: post) idx ly li msg
        (hpre g (by simp)).1 (hpre g (by simp)).2]
    exact ih (fun q hq => hpre q (by simp [hq])) _ _ _ _

/-- C2 (amended): a candidate whose year field is a non-4-digit string
makes resolution fail with `APIAnswerWrongDataError` when it is scanned,
i.e. whenever every candidate before it is well-formed and none of them
matches the requested year.  (A malformed candidate occurring after the
first exact-year match is never examined: see the counterexample.) -/
theorem c2_malformed_year_amended (title year : String) (films pre post : List PyVal)
    (d : PyDict) (y : String)
    (hsplit : films = pre ++ .vDict d :: post)
    (hpre : ∀ g ∈ pre, candOK g = true ∧ yrStr g ≠ year)
    (hy : dget d "year" = some (.vStr y))
    (hbad : y.length ≠ 4 ∨ pyIsDigit y = false) :
    filmsScan title year films =
      .error (.apiAnswerWrongDataError
        "В ответе формат данных года не соответствует ожидаемым") := by
  unfold filmsScan
  rw [hsplit]
  exact filmsGo_bad_after title year _ d post y hy hbad pre hpre 0 "0000" 0 ""

/-- C2 counterexample: the list
`[(id 1, year '2010'), (id 2, year '20')]` contains a non-4-digit year,
yet with requested year 2010 resolution does **not** fail with
`MalformedYear` — the exact match at position 0 returns before the
malformed record is ever validated. -/
theorem c2_malformed_year_cex :
    filmsScan "t" "2010"
      [.vDict [("filmId", .vInt 1), ("nameRu", .vStr "A"), ("year", .vStr "2010")],
       .vDict [("filmId", .vInt 2), ("nameRu", .vStr "B"), ("year", .vStr "20")]] =
      .ok (true, "1", "Данные о фильме A (2010) успешно получены") := rfl

/-- C2 witness: the same malformed candidate placed before any match does
raise `APIAnswerWrongDataError`. -/
theorem c2_malformed_year_amended_witness :
    filmsScan "t" "2010"
      [.vDict [("filmId", .vInt 1), ("nameRu", .vStr "A"), ("year", .vStr "2009")],
       .vDict [("filmId", .vInt 2), ("nameRu", .vStr "B"), ("year", .vStr "20")]] =
      .error (.apiAnswerWrongDataError
        "В ответе формат данных года не соответствует ожидаемым") :=
  c2_malformed_year_amended "t" "2010"
    [.vDict [("filmId", .vInt 1), ("nameRu", .vStr "A"), ("year", .vStr "2009")],
     .vDict [("filmId", .vInt 2), ("nameRu", .vStr "B"), ("year", .vStr "20")]]
    [.vDict [("filmId", .vInt 1), ("nameRu", .vStr "A"), ("year", .vStr "2009")]]
    [] [("filmId", .vInt 2), ("nameRu", .vStr "B"), ("year", .vStr "20")] "20"
    rfl (by decide) rfl (Or.inl (by decide))

-- ======================= C5: artwork file naming =======================

/-- The table entries before the `poster` / `fanart` rows. -/
def FIS_front : List (String × String) :=
  [ ("title", "nameRu"), ("originaltitle", "nameOriginal"),
    ("year", "year"), ("plot", "description"), ("runtime", "filmLength"),
    ("rating", "ratingKinopoisk"), ("votes", "ratingKinopoiskVoteCount"),
    ("mpaa", "ratingMpaa"), ("certification", "ratingMpaa"),
    ("genres", "genres"), ("countries", "countries"), ("kinopoisk_id", "kinopoiskId") ]

theorem cleanStep_poster_eq (raw : PyDict) (acc : CleanAcc) (v : PyVal)
    (hv : dget raw "posterUrl" = some v) (htr : truthy v = true) :
    cleanStep raw acc ("poster", "posterUrl") =
      { acc with posters := dset acc.posters "poster" v } := by
  have hvv : (dget raw "posterUrl").getD .vNone = v := by rw [hv]; rfl
  unfold cleanStep
  rw [hvv]
  simp [htr]

theorem cleanStep_fanart_eq (raw : PyDict) (acc : CleanAcc) (v : PyVal)
    (hv : dget raw "coverUrl" = some v) (htr : truthy v = true) :
    cleanStep raw acc ("fanart", "coverUrl") =
      { acc with posters := dset acc.posters "fanart" v } := by
  have hvv : (dget raw "coverUrl").getD .vNone = v := by rw [hv]; rfl
  unfold cleanStep
  rw [hvv]
  simp [htr]

/-- When the raw record carries truthy poster and cover URLs, the
`posters_urls` dict produced by film normalization holds the poster URL
under `poster`, keeps the initial `cover = None` binding untouched, and
appends the cover URL under the **new key `fanart`** (the assignment
`posters_urls['fanart'] = value` never writes the `cover` slot). -/
theorem posters_of_clean (raw : PyDict) (u1 u2 : PyVal)
    (h1 : dget raw "posterUrl" = some u1) (h2 : dget raw "coverUrl" = some u2)
    (ht1 : truthy u1 = true) (ht2 : truthy u2 = true) :
    (cleanFilmAcc raw).posters = [("poster", u1), ("cover", .vNone), ("fanart", u2)] := by
  have hsplit : cleanFilmAcc raw =
      cleanStep raw
        (cleanStep raw
          (FIS_front.foldl (cleanStep raw) ⟨[], [], [("poster", .vNone), ("cover", .vNone)]⟩)
          ("poster", "posterUrl"))
        ("fanart", "coverUrl") := rfl
  have hfront := cleanFold_posters_frame raw FIS_front (by decide)
    ⟨[], [], [("poster", .vNone), ("cover", .vNone)]⟩
  rw [hsplit, cleanStep_fanart_eq raw _ u2 h2 ht2, cleanStep_poster_eq raw _ u1 h1 ht1]
  show dset (dset (FIS_front.foldl (cleanStep raw)
      ⟨[], [], [("poster", .vNone), ("cover", .vNone)]⟩).posters "poster" u1) "fanart" u2 = _
  rw [hfront]
  rfl

/-- The content the image oracle serves for a URL (failures excluded by
hypothesis where this is used). -/
def imgContent (env : Env) (u : String) : String :=
  match env.image u with
  | .ok c => c
  | .error _ => ""

theorem staffPostersLoop_ok (env : Env) (root : String)
    (hw : ∀ p, env.writeErr p = none) :
    ∀ (sps : List (String × String)) (fs : FS),
    (∀ q ∈ sps, ∃ c, env.image q.2 = .ok c) →
    staffPostersLoop env root (sps.map (fun q => (some (.vStr q.1), .vStr q.2))) fs =
      .ok (fs ++ sps.map (fun q =>
        (root ++ "/.actors/" ++ underscoreName q.1 ++ ".jpg", imgContent env q.2))) := by
  intro sps
  induction sps with
  | nil =>
    intro fs _
    simp [staffPostersLoop]
  | cons q rest ih =>
    intro fs hall
    obtain ⟨c, hc⟩ := hall q (by simp)
    have hcontent : imgContent env q.2 = c := by rw [imgContent, hc]
    simp only [List.map_cons, staffPostersLoop, fetchPic, hc, hw]
    rw [ih (fs ++ [(root ++ "/.actors/" ++ underscoreName q.1 ++ ".jpg", c)])
      (fun p hp => hall p (by simp [hp]))]
    rw [hcontent]
    simp

theorem postersLoop_c5 (env : Env) (root base : String) (u1 u2 : String) (fs : FS)
    (hw : ∀ p, env.writeErr p = none)
    (ht1 : truthy (.vStr u1) = true) (ht2 : truthy (.vStr u2) = true)
    (hc1 : ∃ c, env.image u1 = .ok c) (hc2 : ∃ c, env.image u2 = .ok c) :
    postersLoop [("poster", .vStr u1), ("cover", .vNone), ("fanart", .vStr u2)]
        env root base [("poster", .vStr u1), ("cover", .vNone), ("fanart", .vStr u2)] fs =
      .ok (fs ++ [(root ++ "/" ++ base ++ "-poster.jpg", imgContent env u1),
                  (root ++ "/" ++ base ++ "-fanart.jpg", imgContent env u2)]) := by
  obtain ⟨c1, hcc1⟩ := hc1
  obtain ⟨c2, hcc2⟩ := hc2
  have he1 : imgContent env u1 = c1 := by rw [imgContent, hcc1]
  have he2 : imgContent env u2 = c2 := by rw [imgContent, hcc2]
  have hie1 : u1.isEmpty = false := by simpa [truthy] using ht1
  have hie2 : u2.isEmpty = false := by simpa [truthy] using ht2
  have hkey1 : root ++ "/" ++ base ++ "-" ++ "poster" ++ ".jpg" =
      root ++ "/" ++ base ++ "-poster.jpg" := by
    rw [String.append_assoc, String.append_assoc]
    rfl
  have hkey2 : root ++ "/" ++ base ++ "-" ++ "fanart" ++ ".jpg" =
      root ++ "/" ++ base ++ "-fanart.jpg" := by
    rw [String.append_assoc, String.append_assoc]
    rfl
  rw [he1, he2]
  simp [postersLoop, dget, fetchPic, Option.getD, truthy, hie1, hie2, hcc1, hcc2,
    hw, hkey1, hkey2]

/-- C5 (amended): for a processed file with basename `base` whose raw
record carries both image URLs, the artwork fetcher writes the poster image
to `base-poster.jpg` and the cover image to `base-fanart.jpg` (not
`base-cover.jpg`: the cover URL travels under the `fanart` key), and every
cast photo to the hidden `.actors` subdirectory as `<name>.jpg` with spaces
replaced by underscores. -/
theorem c5_artwork_naming_amended (raw : PyDict) (u1 u2 : String)
    (sps : List (String × String)) (env : Env) (root base : String) (fs : FS)
    (h1 : dget raw "posterUrl" = some (.vStr u1)) (h2 : dget raw "coverUrl" = some (.vStr u2))
    (ht1 : truthy (.vStr u1) = true) (ht2 : truthy (.vStr u2) = true)
    (hw : ∀ p, env.writeErr p = none)
    (hc1 : ∃ c, env.image u1 = .ok c) (hc2 : ∃ c, env.image u2 = .ok c)
    (hcs : ∀ q ∈ sps, ∃ c, env.image q.2 = .ok c) :
    create_posters (.vDict (get_clean_film_info raw).2.1)
        (sps.map (fun q => (some (.vStr q.1), .vStr q.2))) env root base fs =
      (true, "Постеры успешно сохранены.",
        (fs ++ [(root ++ "/" ++ base ++ "-poster.jpg", imgContent env u1),
                (root ++ "/" ++ base ++ "-fanart.jpg", imgContent env u2)])
          ++ sps.map (fun q =>
              (root ++ "/.actors/" ++ underscoreName q.1 ++ ".jpg", imgContent env q.2))) := by
  have hpost : (get_clean_film_info raw).2.1 =
      [("poster", .vStr u1), ("cover", .vNone), ("fanart", .vStr u2)] :=
    posters_of_clean raw (.vStr u1) (.vStr u2) h1 h2 ht1 ht2
  unfold create_posters create_posters_core
  rw [hpost]
  have hpl := postersLoop_c5 env root base u1 u2 fs hw ht1 ht2 hc1 hc2
  have hsl := staffPostersLoop_ok env root hw sps
    (fs ++ [(root ++ "/" ++ base ++ "-poster.jpg", imgContent env u1),
            (root ++ "/" ++ base ++ "-fanart.jpg", imgContent env u2)]) hcs
  simp only [hpl, hsl]

/-- A concrete raw record carrying both image URLs. -/
def rawC5 : PyDict := [("posterUrl", .vStr "u1"), ("coverUrl", .vStr "u2")]

/-- A fully co-operative environment: every download succeeds, every write
succeeds. -/
def envOkC5 : Env :=
  ⟨fun _ => .success ⟨200, .vNone⟩, fun _ => .success ⟨200, .vNone⟩,
   fun _ => .success ⟨200, .vNone⟩, fun u => .ok ("img:" ++ u), fun _ => none⟩

/-- C5 counterexample: with both image URLs present, the files written are
`B-poster.jpg`, `B-fanart.jpg` and the cast photo — `B-cover.jpg` is never
written, contradicting the claim that the cover image goes to
`<basename>-cover.jpg`. -/
theorem c5_artwork_naming_cex :
    (create_posters (.vDict (get_clean_film_info rawC5).2.1)
        [(some (.vStr "John Smith"), .vStr "u3")] envOkC5 "/m" "B" []).2.2.map Prod.fst =
      ["/m/B-poster.jpg", "/m/B-fanart.jpg", "/m/.actors/John_Smith.jpg"] ∧
    "/m/B-cover.jpg" ∉
      (create_posters (.vDict (get_clean_film_info rawC5).2.1)
        [(some (.vStr "John Smith"), .vStr "u3")] envOkC5 "/m" "B" []).2.2.map Prod.fst := by
  have hpaths : (create_posters (.vDict (get_clean_film_info rawC5).2.1)
      [(some (.vStr "John Smith"), .vStr "u3")] envOkC5 "/m" "B" []).2.2.map Prod.fst =
      ["/m/B-poster.jpg", "/m/B-fanart.jpg", "/m/.actors/John_Smith.jpg"] := rfl
  refine ⟨hpaths, ?_⟩
  rw [hpaths]
  decide

/-- C5 witness: the amended naming at the concrete record and environment. -/
theorem c5_artwork_naming_amended_witness :
    create_posters (.vDict (get_clean_film_info rawC5).2.1)
        [(some (.vStr "John Smith"), .vStr "u3")] envOkC5 "/m" "B" [] =
      (true, "Постеры успешно сохранены.",
        [("/m/B-poster.jpg", "img:u1"), ("/m/B-fanart.jpg", "img:u2"),
         ("/m/.actors/John_Smith.jpg", "img:u3")]) := by
  have h := c5_artwork_naming_amended rawC5 "u1" "u2" [("John Smith", "u3")]
    envOkC5 "/m" "B" [] rfl rfl rfl rfl (fun _ => rfl)
    ⟨"img:u1", rfl⟩ ⟨"img:u2", rfl⟩ (by intro q hq; exact ⟨"img:" ++ q.2, rfl⟩)
  exact h.trans rfl

-- ======================= C3: folder-level propagation =======================

/-- C3 (amended): a file's extraction failure (`NoYear`) or resolution
failure (`NotFound`) propagates out of `process_folder` uncaught — the
folder run returns that error, nothing is written for any later file in
the listing, and the accumulated count/summary are lost.  (The caller
`main` catches the exception outside its `os.walk` loop, so the remaining
files of the cycle are skipped, not continued.) -/
theorem c3_folder_abort_amended (env : Env) (root : String) (f : String)
    (rest : List String) (fs : FS) (base ext : String)
    (hsplit : splitext f = (base, ext)) (hvid : ext ∈ VIDEO_EXT)
    (hnfo : is_nfo_file_exists base (f :: rest) = false) :
    (∀ e, get_film_name_year base = .error e →
       process_folder env root (f :: rest) fs = (.error e, fs)) ∧
    (∀ title year, get_film_name_year base = .ok (title, year) →
       get_film_id env title year = .ok none →
       process_folder env root (f :: rest) fs =
         (.error (.notFoundError ("В API для " ++ title ++ " (" ++ year
           ++ ") id не найден")), fs)) := by
  constructor
  · intro e he
    unfold process_folder
    simp [pfGo, hsplit, hvid, hnfo, he]
  · intro title year hty hid
    unfold process_folder
    simp [pfGo, hsplit, hvid, hnfo, hty, hid]

/-- A search candidate and a detail record for the well-behaved film used
by the folder-level runs. -/
def goodFilm : PyVal :=
  .vDict [("filmId", .vInt 77), ("nameRu", .vStr "Good"), ("year", .vStr "2010")]

def goodRaw : PyVal := .vDict [("nameRu", .vStr "Good"), ("year", .vStr "2010")]

/-- An environment in which the film `Good` (2010) resolves and enriches
successfully and everything else is a 404. -/
def envC3 : Env :=
  ⟨fun t => if t = "Good" then .success ⟨200, .vDict [("films", .vList [goodFilm])]⟩
            else .success ⟨404, .vNone⟩,
   fun i => if i = "77" then .success ⟨200, goodRaw⟩ else .success ⟨404, .vNone⟩,
   fun _ => .success ⟨200, .vList []⟩,
   fun u => .ok ("img:" ++ u),
   fun _ => none⟩

/-- C3 counterexample: in a folder listing `[bad_name.mp4, Good.2010.mp4]`
the first file's `NoYear` failure makes `process_folder` return an error
with nothing written — the processable second file is **not** processed —
although the same folder with only `Good.2010.mp4` processes it and writes
its sidecar.  The orchestrator does not continue with the next file. -/
theorem c3_folder_abort_cex :
    (process_folder envC3 "/m" ["bad_name.mp4", "Good.2010.mp4"] []).1 =
      .error (.noYearError "У файла bad_name год выпуска не найден.\nПроверьте имя файла.") ∧
    (process_folder envC3 "/m" ["bad_name.mp4", "Good.2010.mp4"] []).2 = [] ∧
    processedCount (process_folder envC3 "/m" ["Good.2010.mp4"] []).1 = 1 ∧
    (process_folder envC3 "/m" ["Good.2010.mp4"] []).2.map Prod.fst = ["/m/Good.2010.nfo"] :=
  ⟨rfl, rfl, rfl, rfl⟩

/-- C3 witness: the amended propagation at the concrete folder. -/
theorem c3_folder_abort_amended_witness :
    process_folder envC3 "/m" ["bad_name.mp4", "Good.2010.mp4"] [] =
      (.error (.noYearError "У файла bad_name год выпуска не найден.\nПроверьте имя файла."),
        []) :=
  (c3_folder_abort_amended envC3 "/m" "bad_name.mp4" ["Good.2010.mp4"] [] "bad_name" ".mp4"
    rfl (by decide) rfl).1 _ rfl

-- ======================= C10: unguarded summary access =======================

def filmC10 : PyVal :=
  .vDict [("filmId", .vInt 5), ("nameRu", .vStr "Film"), ("year", .vStr "2010")]

/-- A detail record with no `nameRu`: normalization omits `title` and only
records it in `empty_fields`. -/
def rawC10 : PyDict := [("nameOriginal", .vStr "Film"), ("year", .vStr "2010")]

def envC10 : Env :=
  ⟨fun t => if t = "Film" then .success ⟨200, .vDict [("films", .vList [filmC10])]⟩
            else .success ⟨404, .vNone⟩,
   fun i => if i = "5" then .success ⟨200, .vDict rawC10⟩ else .success ⟨404, .vNone⟩,
   fun _ => .success ⟨200, .vList []⟩,
   fun _ => .ok "",
   fun _ => none⟩

/-- C10: a raw record whose `nameRu` is absent is a non-error for the
normalizer (it merely lists `title` in `empty_fields`), yet the folder
pipeline's unguarded `clean_film_info['title']` access raises a `KeyError`
that aborts the entire directory pass — the error return shows the second
file of the listing is never reached and nothing is written. -/
theorem c10_keyerror_abort :
    "title" ∈ (cleanFilmAcc rawC10).empty ∧
    process_folder envC10 "/m" ["Film.2010.mp4", "Other.2011.mp4"] [] =
      (.error (.keyError "title"), []) :=
  ⟨by decide, rfl⟩

end MediaScraper
